import Mathlib

set_option maxRecDepth 8000

/-!
Shallow embedding of the body-frame drag-fusion step of the ecl estimator
(`src/EKF/drag_fusion.cpp`, `Ekf::fuseDrag`) and of the standalone
NE-velocity Kalman-gain fragment (`src/unnamed/part_000`), over exact
rational arithmetic.  Float arithmetic is modelled by `ℚ`; the single
call to `sqrtf` is abstracted as an explicit function argument `sqrtf`,
so universally quantified theorems hold for every interpretation of the
square root (in particular the floating-point one), and concrete
evaluations pass a table that agrees with the real square root at every
argument actually reached.
-/

/-- Mean state vector of the 24-state estimator, indexed as in the source:
indices 0-3 orientation quaternion, 4-6 earth-frame velocity (N,E,D),
7-9 position, 10-12 delta-angle bias, 13-15 delta-velocity bias,
16-21 magnetic-field states, 22-23 horizontal wind velocity (N,E). -/
abbrev StateVec := Fin 24 → ℚ

/-- Covariance matrix `P`, indexed like the state vector. -/
abbrev Cov := Fin 24 → Fin 24 → ℚ

/-- Configuration and filter scalars read by `Ekf::fuseDrag`:
ballistic coefficients `_params.bcoef_x/_bcoef_y`, measurement noise
`_params.drag_noise`, the member `_air_density`, and `_dt_ekf_avg`. -/
structure DragParams where
  bcoef_x : ℚ
  bcoef_y : ℚ
  drag_noise : ℚ
  air_density : ℚ
  dt_ekf_avg : ℚ

/-- The mutable estimator members touched by `Ekf::fuseDrag`: the mean
state `_state` (as a flat 24-vector), the covariance `P`, and the
published diagnostics `_drag_innov`, `_drag_innov_var`,
`_drag_test_ratio`. -/
structure EkfState where
  x : StateVec
  P : Cov
  drag_innov : Fin 2 → ℚ
  drag_innov_var : Fin 2 → ℚ
  drag_test_ratio : Fin 2 → ℚ

/-- The per-axis scalars computed inside one iteration of the fusion loop:
bias-corrected measured specific force, implied airspeed, linearisation
scale `Kaccx`/`Kaccy`, innovation variance, the 9-entry observation
Jacobian `Hfusion`, the two wind-state Kalman gains written to
`Kfusion[22]`/`Kfusion[23]`, predicted acceleration, innovation and test
ratio.  Fields after `innov_var` correspond to code that only executes
when the conditioning check passes. -/
structure AxisCalc where
  mea_acc : ℚ
  airSpd : ℚ
  Kacc : ℚ
  innov_var : ℚ
  H : Fin 9 → ℚ
  k22 : ℚ
  k23 : ℚ
  predAccel : ℚ
  innov : ℚ
  test_ratio : ℚ

/-- Observation noise variance `R_ACC = sq(_params.drag_noise)` (line 50). -/
def rAcc (p : DragParams) : ℚ := p.drag_noise * p.drag_noise

/-- Air density floored at 0.1, `rho = fmaxf(_air_density, 0.1f)` (line 52). -/
def rhoOf (p : DragParams) : ℚ := max p.air_density (1/10)

/-- Modelled from the spec: `quatToInverseRotMat` is part of the ecl math
library and is not among the given sources.  Per spec section 4.1 it
returns the earth-to-body rotation, i.e. the transpose of the standard
body-to-earth direction cosine matrix of the quaternion. -/
def quatToInverseRotMat (q0 q1 q2 q3 : ℚ) : Fin 3 → Fin 3 → ℚ :=
  ![![q0^2 + q1^2 - q2^2 - q3^2, 2*(q1*q2 + q0*q3), 2*(q1*q3 - q0*q2)],
    ![2*(q1*q2 - q0*q3), q0^2 - q1^2 + q2^2 - q3^2, 2*(q2*q3 + q0*q1)],
    ![2*(q1*q3 + q0*q2), 2*(q2*q3 - q0*q1), q0^2 - q1^2 - q2^2 + q3^2]]

/-- Relative wind velocity rotated into the body frame, computed once per
call from the state read at entry (lines 79-81): the earth-frame relative
wind is `(vn - vwn, ve - vwe, vd)`. -/
def relWindBody (x : StateVec) : Fin 3 → ℚ := fun r =>
  let M := quatToInverseRotMat (x 0) (x 1) (x 2) (x 3)
  M r 0 * (x 4 - x 22) + M r 1 * (x 5 - x 23) + M r 2 * x 6

/-- Body X axis computation (lines 86-181).  `pre` is the state captured
at entry (lines 63-75, source of the quaternion, velocity and wind
constants), `x` the live state (the accelerometer bias read at line 88 is
state 13), `P` the live covariance and `rwb` the relative wind in body
frame.  Transcribed term by term from the source. -/
def xAxisCalc (sqrtf : ℚ → ℚ) (p : DragParams) (accelXY : Fin 2 → ℚ)
    (pre x : StateVec) (P : Cov) (rwb : Fin 3 → ℚ) : AxisCalc :=
  let R_ACC := rAcc p
  let rho := rhoOf p
  let BC_inv_x := 1 / p.bcoef_x
  let q0 := pre 0
  let q1 := pre 1
  let q2 := pre 2
  let q3 := pre 3
  let vn := pre 4
  let ve := pre 5
  let vd := pre 6
  let vwn := pre 22
  let vwe := pre 23
  let mea_acc := accelXY 0 - x 13 / p.dt_ekf_avg
  let airSpd := sqrtf ((2 * |mea_acc|) / (BC_inv_x * rho))
  let Kaccx := max (1/10) (rho * BC_inv_x * airSpd)
  let HK0 := vn - vwn
  let HK1 := ve - vwe
  let HK2 := HK0*q0 + HK1*q3 - q2*vd
  let HK3 := 2*Kaccx
  let HK4 := HK0*q1 + HK1*q2 + q3*vd
  let HK5 := HK0*q2 - HK1*q1 + q0*vd
  let HK6 := -HK0*q3 + HK1*q0 + q1*vd
  let HK7 := q0^2 + q1^2 - q2^2 - q3^2
  let HK8 := HK7*Kaccx
  let HK9 := q0*q3 + q1*q2
  let HK10 := HK3*HK9
  let HK11 := q0*q2 - q1*q3
  let HK12 := 2*HK9
  let HK13 := 2*HK11
  let HK14 := 2*HK4
  let HK15 := 2*HK2
  let HK16 := 2*HK5
  let HK17 := 2*HK6
  let HK18 := -HK12*P 0 23 + HK12*P 0 5 - HK13*P 0 6 + HK14*P 0 1 + HK15*P 0 0 - HK16*P 0 2 + HK17*P 0 3 - HK7*P 0 22 + HK7*P 0 4
  let HK19 := HK12*P 5 23
  let HK20 := -HK12*P 23 23 - HK13*P 6 23 + HK14*P 1 23 + HK15*P 0 23 - HK16*P 2 23 + HK17*P 3 23 + HK19 - HK7*P 22 23 + HK7*P 4 23
  let HK21 := Kaccx^2
  let HK22 := HK12*HK21
  let HK23 := HK12*P 5 5 - HK13*P 5 6 + HK14*P 1 5 + HK15*P 0 5 - HK16*P 2 5 + HK17*P 3 5 - HK19 + HK7*P 4 5 - HK7*P 5 22
  let HK24 := HK12*P 5 6 - HK12*P 6 23 - HK13*P 6 6 + HK14*P 1 6 + HK15*P 0 6 - HK16*P 2 6 + HK17*P 3 6 + HK7*P 4 6 - HK7*P 6 22
  let HK25 := HK7*P 4 22
  let HK26 := -HK12*P 4 23 + HK12*P 4 5 - HK13*P 4 6 + HK14*P 1 4 + HK15*P 0 4 - HK16*P 2 4 + HK17*P 3 4 - HK25 + HK7*P 4 4
  let HK27 := HK21*HK7
  let HK28 := -HK12*P 22 23 + HK12*P 5 22 - HK13*P 6 22 + HK14*P 1 22 + HK15*P 0 22 - HK16*P 2 22 + HK17*P 3 22 + HK25 - HK7*P 22 22
  let HK29 := -HK12*P 1 23 + HK12*P 1 5 - HK13*P 1 6 + HK14*P 1 1 + HK15*P 0 1 - HK16*P 1 2 + HK17*P 1 3 - HK7*P 1 22 + HK7*P 1 4
  let HK30 := -HK12*P 2 23 + HK12*P 2 5 - HK13*P 2 6 + HK14*P 1 2 + HK15*P 0 2 - HK16*P 2 2 + HK17*P 2 3 - HK7*P 2 22 + HK7*P 2 4
  let HK31 := -HK12*P 3 23 + HK12*P 3 5 - HK13*P 3 6 + HK14*P 1 3 + HK15*P 0 3 - HK16*P 2 3 + HK17*P 3 3 - HK7*P 3 22 + HK7*P 3 4
  let innov_var := -HK13*HK21*HK24 + HK14*HK21*HK29 + HK15*HK18*HK21 - HK16*HK21*HK30 + HK17*HK21*HK31 - HK20*HK22 + HK22*HK23 + HK26*HK27 - HK27*HK28 + R_ACC
  let HK32 := Kaccx / innov_var
  let H : Fin 9 → ℚ :=
    ![-HK2*HK3, -HK3*HK4, HK3*HK5, -HK3*HK6, -HK8, -HK10, HK11*HK3, HK8, HK10]
  let k22 := -HK28*HK32
  let k23 := -HK20*HK32
  let drag_sign : ℚ := if 0 ≤ rwb 0 then 1 else -1
  let predAccel := -BC_inv_x * (1/2) * rho * (rwb 0 * rwb 0) * drag_sign
  let innov := predAccel - mea_acc
  let test_ratio := innov * innov / (25 * innov_var)
  ⟨mea_acc, airSpd, Kaccx, innov_var, H, k22, k23, predAccel, innov, test_ratio⟩

/-- Body Y axis computation (lines 183-276), transcribed term by term:
the accelerometer bias read at line 185 is state 14; the `HK` chain for
this axis has its own definitions in the source. -/
def yAxisCalc (sqrtf : ℚ → ℚ) (p : DragParams) (accelXY : Fin 2 → ℚ)
    (pre x : StateVec) (P : Cov) (rwb : Fin 3 → ℚ) : AxisCalc :=
  let R_ACC := rAcc p
  let rho := rhoOf p
  let BC_inv_y := 1 / p.bcoef_y
  let q0 := pre 0
  let q1 := pre 1
  let q2 := pre 2
  let q3 := pre 3
  let vn := pre 4
  let ve := pre 5
  let vd := pre 6
  let vwn := pre 22
  let vwe := pre 23
  let mea_acc := accelXY 1 - x 14 / p.dt_ekf_avg
  let airSpd := sqrtf ((2 * |mea_acc|) / (BC_inv_y * rho))
  let Kaccy := max (1/10) (rho * BC_inv_y * airSpd)
  let HK0 := ve - vwe
  let HK1 := vn - vwn
  let HK2 := HK0*q0 - HK1*q3 + q1*vd
  let HK3 := 2*Kaccy
  let HK4 := -HK0*q1 + HK1*q2 + q0*vd
  let HK5 := HK0*q2 + HK1*q1 + q3*vd
  let HK6 := HK0*q3 + HK1*q0 - q2*vd
  let HK7 := q0*q3 - q1*q2
  let HK8 := HK3*HK7
  let HK9 := q0^2 - q1^2 + q2^2 - q3^2
  let HK10 := HK9*Kaccy
  let HK11 := q0*q1 + q2*q3
  let HK12 := 2*HK11
  let HK13 := 2*HK7
  let HK14 := 2*HK5
  let HK15 := 2*HK2
  let HK16 := 2*HK4
  let HK17 := 2*HK6
  let HK18 := HK12*P 0 6 + HK13*P 0 22 - HK13*P 0 4 + HK14*P 0 2 + HK15*P 0 0 + HK16*P 0 1 - HK17*P 0 3 - HK9*P 0 23 + HK9*P 0 5
  let HK19 := Kaccy^2
  let HK20 := HK12*P 6 6 - HK13*P 4 6 + HK13*P 6 22 + HK14*P 2 6 + HK15*P 0 6 + HK16*P 1 6 - HK17*P 3 6 + HK9*P 5 6 - HK9*P 6 23
  let HK21 := HK13*P 4 22
  let HK22 := HK12*P 6 22 + HK13*P 22 22 + HK14*P 2 22 + HK15*P 0 22 + HK16*P 1 22 - HK17*P 3 22 - HK21 - HK9*P 22 23 + HK9*P 5 22
  let HK23 := HK13*HK19
  let HK24 := HK12*P 4 6 - HK13*P 4 4 + HK14*P 2 4 + HK15*P 0 4 + HK16*P 1 4 - HK17*P 3 4 + HK21 - HK9*P 4 23 + HK9*P 4 5
  let HK25 := HK9*P 5 23
  let HK26 := HK12*P 5 6 - HK13*P 4 5 + HK13*P 5 22 + HK14*P 2 5 + HK15*P 0 5 + HK16*P 1 5 - HK17*P 3 5 - HK25 + HK9*P 5 5
  let HK27 := HK19*HK9
  let HK28 := HK12*P 6 23 + HK13*P 22 23 - HK13*P 4 23 + HK14*P 2 23 + HK15*P 0 23 + HK16*P 1 23 - HK17*P 3 23 + HK25 - HK9*P 23 23
  let HK29 := HK12*P 2 6 + HK13*P 2 22 - HK13*P 2 4 + HK14*P 2 2 + HK15*P 0 2 + HK16*P 1 2 - HK17*P 2 3 - HK9*P 2 23 + HK9*P 2 5
  let HK30 := HK12*P 1 6 + HK13*P 1 22 - HK13*P 1 4 + HK14*P 1 2 + HK15*P 0 1 + HK16*P 1 1 - HK17*P 1 3 - HK9*P 1 23 + HK9*P 1 5
  let HK31 := HK12*P 3 6 + HK13*P 3 22 - HK13*P 3 4 + HK14*P 2 3 + HK15*P 0 3 + HK16*P 1 3 - HK17*P 3 3 - HK9*P 3 23 + HK9*P 3 5
  let innov_var := HK12*HK19*HK20 + HK14*HK19*HK29 + HK15*HK18*HK19 + HK16*HK19*HK30 - HK17*HK19*HK31 + HK22*HK23 - HK23*HK24 + HK26*HK27 - HK27*HK28 + R_ACC
  let HK32 := Kaccy / innov_var
  let H : Fin 9 → ℚ :=
    ![-HK2*HK3, -HK3*HK4, HK3*HK5, -HK3*HK6, -HK8, -HK10, HK11*HK3, HK8, HK10]
  let k22 := -HK28*HK32
  let k23 := -HK20*HK32
  let drag_sign : ℚ := if 0 ≤ rwb 1 then 1 else -1
  let predAccel := -BC_inv_y * (1/2) * rho * (rwb 1 * rwb 1) * drag_sign
  let innov := predAccel - mea_acc
  let test_ratio := innov * innov / (25 * innov_var)
  ⟨mea_acc, airSpd, Kaccy, innov_var, H, k22, k23, predAccel, innov, test_ratio⟩

/-- Dispatch on `axis_index` (line 86 / line 183). -/
def axisCalcOf (sqrtf : ℚ → ℚ) (p : DragParams) (accelXY : Fin 2 → ℚ)
    (pre x : StateVec) (P : Cov) (rwb : Fin 3 → ℚ) (axis : Fin 2) : AxisCalc :=
  if axis = 0 then xAxisCalc sqrtf p accelXY pre x P rwb
  else yAxisCalc sqrtf p accelXY pre x P rwb

/-- Modelled from the spec: `Ekf::fuse` (the state corrector, not among
the given sources) applies `state ← state − K·innovation` componentwise
(spec section 4.5). -/
def fuse (x : StateVec) (K : Fin 24 → ℚ) (innovation : ℚ) : StateVec :=
  fun i => x i - K i * innovation

/-- The only two writes `fuseDrag` makes to the local gain array
`Kfusion`: entries 22 and 23 (lines 173-174 / 268-269); all other
entries keep whatever the array held before. -/
def kupd (kArr : Fin 24 → ℚ) (ac : AxisCalc) : Fin 24 → ℚ :=
  Function.update (Function.update kArr 22 ac.k22) 23 ac.k23

/-- The `KHP` matrix of the covariance correction loop (lines 288-306):
`KHP(row,col) = Kfusion[row] * Σ_j Hfusion[j]·P(idx_j,col)` where the
nine Jacobian slots map to state indices 0-6, 22, 23. -/
def mkKHP (kArr : Fin 24 → ℚ) (H : Fin 9 → ℚ) (P : Cov) : Cov :=
  fun row col =>
    let KH : Fin 9 → ℚ := fun j => kArr row * H j
    KH 0 * P 0 col + KH 1 * P 1 col + KH 2 * P 2 col + KH 3 * P 3 col +
    KH 4 * P 4 col + KH 5 * P 5 col + KH 6 * P 6 col + KH 7 * P 22 col +
    KH 8 * P 23 col

/-- Modelled from the spec: `P.uncorrelateCovarianceSetVariance<1>(i, 0.0f)`
(not among the given sources) decorrelates state `i` — zeroes its row and
column of the covariance — and resets its variance to the given value 0
(spec section 4.4). -/
def uncorrelateCovarianceSetVarianceZero (P : Cov) (i : Fin 24) : Cov :=
  fun r c => if r = i ∨ c = i then 0 else P r c

/-- One iteration of the health-check loop (lines 312-318): if the live
diagonal entry is below the corresponding `KHP` diagonal entry the state
is decorrelated and the update marked unhealthy. -/
def healthStep (KHP : Cov) (acc : Cov × Bool) (i : Fin 24) : Cov × Bool :=
  if acc.1 i i < KHP i i then (uncorrelateCovarianceSetVarianceZero acc.1 i, false)
  else acc

/-- The health-check loop over all `_k_num_states = 24` states. -/
def healthLoop (P KHP : Cov) : Cov × Bool :=
  (List.finRange 24).foldl (healthStep KHP) (P, true)

/-- Modelled from the spec: `fixCovarianceErrors(true)` (not among the
given sources) is the external covariance-repair routine; per spec
sections 1 and 4.4 its relevant effect here is symmetrization.  Bound
enforcement is outside this core's contract. -/
def fixCovarianceErrors (P : Cov) : Cov := fun r c => (P r c + P c r) / 2

/-- The consistency gate and the guarded covariance/state correction
(lines 280-330): if the test ratio passes, compute `KHP`, run the health
loop, and — only if healthy — commit `P - KHP`, repair, and apply the
state correction `fuse(Kfusion, _drag_innov[axis_index])`. -/
def gateAndFuse (ac : AxisCalc) (axis : Fin 2) (st : EkfState)
    (kArr : Fin 24 → ℚ) : EkfState :=
  if ac.test_ratio ≤ 1 then
    let KHP := mkKHP kArr ac.H st.P
    let hl := healthLoop st.P KHP
    if hl.2 then
      { st with
        P := fixCovarianceErrors (fun r c => hl.1 r c - KHP r c),
        x := fuse st.x kArr (st.drag_innov axis) }
    else
      { st with P := hl.1 }
  else st

/-- The estimator state after the write of `_drag_innov_var[axis_index]`
(line 131 / 225) when the conditioning check fails: only the innovation
variance of the axis has been published. -/
def abortResult (st : EkfState) (axis : Fin 2) (v : ℚ) : EkfState :=
  { st with drag_innov_var := Function.update st.drag_innov_var axis v }

/-- The estimator state after the diagnostic writes of one processed axis
(lines 131, 180-181 / 225, 275-276): innovation variance, innovation and
test ratio of the axis published; state and covariance untouched. -/
def diagWritten (st : EkfState) (axis : Fin 2) (ac : AxisCalc) : EkfState :=
  { st with
    drag_innov_var := Function.update st.drag_innov_var axis ac.innov_var,
    drag_innov := Function.update st.drag_innov axis ac.innov,
    drag_test_ratio := Function.update st.drag_test_ratio axis ac.test_ratio }

/-- One iteration of the sequential fusion loop (lines 84-331) for one
axis: compute the axis scalars, publish the innovation variance, abort
the whole call if it is below `R_ACC` (lines 132-134 / 226-229, flag
`true`), otherwise write the two wind gains into the gain array, publish
innovation and test ratio, and run the gate.  Returns the updated
estimator state, the gain array (whose entries 0-21 are never written by
`fuseDrag`), and the abort flag. -/
def axisStep (sqrtf : ℚ → ℚ) (p : DragParams) (accelXY : Fin 2 → ℚ)
    (pre : StateVec) (rwb : Fin 3 → ℚ) (axis : Fin 2) (st : EkfState)
    (kArr : Fin 24 → ℚ) : EkfState × (Fin 24 → ℚ) × Bool :=
  let ac := axisCalcOf sqrtf p accelXY pre st.x st.P rwb axis
  if ac.innov_var < rAcc p then (abortResult st axis ac.innov_var, kArr, true)
  else
    (gateAndFuse ac axis (diagWritten st axis ac) (kupd kArr ac), kupd kArr ac, false)

/-- `Ekf::fuseDrag` (lines 46-332).  `kInit` models the indeterminate
initial contents of the uninitialized stack array `float Kfusion[24]`
(line 49): the source only ever assigns entries 22 and 23, yet reads all
24 entries in the correction loop and in the call to `fuse`.  The
9-entry `Hfusion` array is also declared uninitialized but every entry is
assigned in each axis branch before any read, so it needs no such
parameter.  The quaternion, velocity and wind constants are captured once
at entry (`pre`), while the covariance, the bias states and the
diagnostics are read and written live. -/
def fuseDrag (sqrtf : ℚ → ℚ) (p : DragParams) (accelXY : Fin 2 → ℚ)
    (kInit : Fin 24 → ℚ) (st : EkfState) : EkfState :=
  if p.bcoef_x < 1 ∨ p.bcoef_y < 1 then st
  else
    let pre := st.x
    let rwb := relWindBody pre
    let a0 := axisStep sqrtf p accelXY pre rwb 0 st kInit
    if a0.2.2 then a0.1
    else (axisStep sqrtf p accelXY pre rwb 1 a0.1 a0.2.1).1

/-- Masking of rows and columns of a covariance by a set of decorrelated
states; auxiliary to the characterization of the health loop. -/
def maskCov (P : Cov) (s : Fin 24 → Bool) : Cov :=
  fun r c => if s r || s c then 0 else P r c

/-- The NE-velocity Kalman-gain fragment (`src/unnamed/part_000`),
transcribed term by term; returns `(K(0,0), K(0,1), K(1,1))`. -/
def neVelKalmanGain (P00 P01 P11 velObsVar : ℚ) : ℚ × ℚ × ℚ :=
  let S0 := P01^2
  let S1 := P11 + velObsVar
  let S2 := P00 + velObsVar
  let S3 := 1/(S0 - S1*S2)
  let S4 := -P01*S3*velObsVar
  (S3*(-P00*S1 + S0), S4, S3*(-P11*S2 + S0))


/-- Square-root table used for the concrete evaluations in this file.  It
agrees with the real (float) square root at every argument at which it is
actually evaluated below: 0, 1, 16 and 1600.  Universally quantified
theorems take the square-root function as a parameter and hold for every
interpretation. -/
def sqrtTable (q : ℚ) : ℚ :=
  if q = 1 then 1 else if q = 16 then 4 else if q = 1600 then 40 else 0

/-- State with identity quaternion and all other components zero. -/
def qId : StateVec := fun i => if i = 0 then 1 else 0

/-- Identity covariance matrix. -/
def idCov : Cov := fun r c => if r = c then 1 else 0

/-- All-zero covariance matrix. -/
def zeroCov : Cov := fun _ _ => 0

/-- Sentinel diagnostics: prior published values, used to observe which
diagnostics a call does or does not overwrite. -/
def diag99 : Fin 2 → ℚ := fun _ => 99

/-- Hovering estimator state: identity quaternion, zero velocity, wind
and biases, identity covariance, sentinel diagnostics. -/
def hoverState : EkfState := ⟨qId, idCov, diag99, diag99, diag99⟩

/-- Nominal parameters: both ballistic coefficients 1, drag noise 1
(so `R_ACC = 1`), air density 1, averaged time step 1. -/
def pNom : DragParams := ⟨1, 1, 1, 1, 1⟩

/-- Parameters with the X ballistic coefficient below the usable minimum. -/
def pHalf : DragParams := ⟨1/2, 1, 1, 1, 1⟩

/-- Measurement sample: body-X specific force 1/2 (accepted by the gate),
body-Y specific force 800 (rejected by the gate). -/
def accBug : Fin 2 → ℚ := fun i => if i = 0 then 1/2 else 800

/-- All-zero measurement sample. -/
def zeroAcc : Fin 2 → ℚ := fun _ => 0

/-- Measurement sample with body-X specific force 1/2 only. -/
def accHalf : Fin 2 → ℚ := fun i => if i = 0 then 1/2 else 0

/-- Measurement sample with body-X specific force 8 only. -/
def accEight : Fin 2 → ℚ := fun i => if i = 0 then 8 else 0

/-- One possible content of the uninitialized gain array: 1 in entry 0,
zero elsewhere. -/
def e0 : Fin 24 → ℚ := fun i => if i = 0 then 1 else 0

/-- The all-zero gain-array content. -/
def zeroK : Fin 24 → ℚ := fun _ => 0

/-- State vector with identity quaternion and north velocity 1. -/
def xC3 : StateVec := fun i => if i = 0 then 1 else if i = 4 then 1 else 0

/-- Covariance that is zero except for the cross term between state 0 and
state 22; it drives the computed X-axis innovation variance below
`R_ACC`. -/
def pC3cov : Cov := fun r c =>
  if (r = 0 ∧ c = 22) ∨ (r = 22 ∧ c = 0) then 1 else 0

/-- Estimator state triggering the conditioning abort on the X axis. -/
def stC3 : EkfState := ⟨xC3, pC3cov, diag99, diag99, diag99⟩

/-- Identity covariance except for a cross term -3 between states 4 and
22; it makes the candidate covariance correction drive variance 22
negative while the gate still passes. -/
def pC4cov : Cov := fun r c =>
  if (r = 4 ∧ c = 22) ∨ (r = 22 ∧ c = 4) then -3 else if r = c then 1 else 0

/-- Estimator state for the unhealthy-correction scenario. -/
def stC4 : EkfState := ⟨qId, pC4cov, diag99, diag99, diag99⟩

/-- Estimator state with zero covariance, for the gate-rejection
scenario. -/
def stC6 : EkfState := ⟨qId, zeroCov, diag99, diag99, diag99⟩

lemma maskCov_false (P : Cov) : maskCov P (fun _ => false) = P := by
  funext r c
  simp [maskCov]

lemma uncorrelate_maskCov (P : Cov) (s : Fin 24 → Bool) (i : Fin 24) :
    uncorrelateCovarianceSetVarianceZero (maskCov P s) i
      = maskCov P (fun j => s j || decide (j = i)) := by
  funext r c
  by_cases hr : r = i <;> by_cases hc : c = i <;>
    simp [uncorrelateCovarianceSetVarianceZero, maskCov, hr, hc]

lemma foldl_healthStep (KHP P : Cov) (L : List (Fin 24)) :
    L.Nodup → ∀ (s : Fin 24 → Bool) (b : Bool), (∀ i ∈ L, s i = false) →
    L.foldl (healthStep KHP) (maskCov P s, b) =
      (maskCov P (fun j => s j || (decide (j ∈ L) && decide (P j j < KHP j j))),
       b && L.all (fun i => !decide (P i i < KHP i i))) := by
  induction L with
  | nil =>
    intro _ s b _
    have hfn : (fun j => s j ||
        (decide (j ∈ ([] : List (Fin 24))) && decide (P j j < KHP j j))) = s := by
      funext j; simp
    rw [List.foldl_nil, hfn, List.all_nil, Bool.and_true]
  | cons i T ih =>
    intro hnd s b hs
    have hiT : i ∉ T := (List.nodup_cons.mp hnd).1
    have hndT : T.Nodup := (List.nodup_cons.mp hnd).2
    have hsi : s i = false := hs i (List.mem_cons_self i T)
    have hmask : (maskCov P s) i i = P i i := by simp [maskCov, hsi]
    rw [List.foldl_cons]
    by_cases h : P i i < KHP i i
    · have hstep : healthStep KHP (maskCov P s, b) i =
          (maskCov P (fun j => s j || decide (j = i)), false) := by
        unfold healthStep
        dsimp only
        rw [hmask, if_pos h, uncorrelate_maskCov]
      rw [hstep, ih hndT _ false ?_]
      · rw [Prod.mk.injEq]
        constructor
        · apply congrArg
          funext j
          by_cases hj : j = i
          · subst hj
            simp [hsi, h]
          · simp [hj, List.mem_cons]
        · simp [List.all_cons, h]
      · intro j hj
        have hji : j ≠ i := ne_of_mem_of_not_mem hj hiT
        simp [hs j (List.mem_cons_of_mem _ hj), hji]
    · have hstep : healthStep KHP (maskCov P s, b) i = (maskCov P s, b) := by
        unfold healthStep
        dsimp only
        rw [hmask, if_neg h]
      rw [hstep, ih hndT s b (fun j hj => hs j (List.mem_cons_of_mem _ hj))]
      rw [Prod.mk.injEq]
      constructor
      · apply congrArg
        funext j
        by_cases hj : j = i
        · subst hj
          simp [hsi, h, hiT]
        · simp [hj, List.mem_cons]
      · simp [List.all_cons, h]

lemma healthLoop_eq (P KHP : Cov) :
    healthLoop P KHP =
      (maskCov P (fun j => decide (P j j < KHP j j)),
       decide (∀ i, ¬ P i i < KHP i i)) := by
  have h := foldl_healthStep KHP P (List.finRange 24) (List.nodup_finRange 24)
    (fun _ => false) true (fun _ _ => rfl)
  rw [maskCov_false] at h
  unfold healthLoop
  rw [h, Prod.mk.injEq]
  constructor
  · apply congrArg
    funext j
    simp [List.mem_finRange]
  · rw [Bool.true_and]
    by_cases hall : ∀ i : Fin 24, ¬ P i i < KHP i i
    · have h1 : ((List.finRange 24).all fun i => !decide (P i i < KHP i i)) = true := by
        rw [List.all_eq_true]
        intro i _
        simpa using hall i
      rw [h1, decide_eq_true hall]
    · have h1 : ((List.finRange 24).all fun i => !decide (P i i < KHP i i)) = false := by
        rw [← Bool.not_eq_true, List.all_eq_true]
        push_neg at hall
        obtain ⟨i, hi⟩ := hall
        intro hforall
        exact absurd (by simpa using hforall i (List.mem_finRange i)) (not_not.mpr hi)
      push_neg at hall
      rw [h1, decide_eq_false (by push_neg; exact hall)]

lemma healthLoop_fst (P KHP : Cov) (r c : Fin 24) :
    (healthLoop P KHP).1 r c =
      if P r r < KHP r r ∨ P c c < KHP c c then 0 else P r c := by
  rw [healthLoop_eq]
  simp [maskCov, Bool.or_eq_true, decide_eq_true_eq]

lemma healthLoop_snd (P KHP : Cov) :
    (healthLoop P KHP).2 = true ↔ ∀ i, ¬ P i i < KHP i i := by
  rw [healthLoop_eq]
  simp

lemma healthLoop_fst_healthy (P KHP : Cov) (hh : ∀ i, ¬ P i i < KHP i i) :
    (healthLoop P KHP).1 = P := by
  funext r c
  rw [healthLoop_fst]
  simp [hh r, hh c]

lemma fuse_innov_zero (x : StateVec) (K : Fin 24 → ℚ) : fuse x K 0 = x := by
  funext i
  simp [fuse]

lemma gateAndFuse_drag_fields (ac : AxisCalc) (axis : Fin 2) (st : EkfState)
    (kArr : Fin 24 → ℚ) :
    (gateAndFuse ac axis st kArr).drag_innov = st.drag_innov ∧
    (gateAndFuse ac axis st kArr).drag_innov_var = st.drag_innov_var ∧
    (gateAndFuse ac axis st kArr).drag_test_ratio = st.drag_test_ratio := by
  simp only [gateAndFuse]
  split_ifs <;> exact ⟨rfl, rfl, rfl⟩

lemma gateAndFuse_rejected (ac : AxisCalc) (axis : Fin 2) (st : EkfState)
    (kArr : Fin 24 → ℚ) (hgate : ¬ ac.test_ratio ≤ 1) :
    gateAndFuse ac axis st kArr = st := by
  unfold gateAndFuse
  rw [if_neg hgate]

lemma gateAndFuse_unhealthy (ac : AxisCalc) (axis : Fin 2) (st : EkfState)
    (kArr : Fin 24 → ℚ) (hgate : ac.test_ratio ≤ 1)
    (hunh : ∃ i, st.P i i < mkKHP kArr ac.H st.P i i) :
    gateAndFuse ac axis st kArr =
      { st with P := (healthLoop st.P (mkKHP kArr ac.H st.P)).1 } := by
  have hflag : (healthLoop st.P (mkKHP kArr ac.H st.P)).2 = false := by
    rw [Bool.eq_false_iff]
    intro htrue
    obtain ⟨i, hi⟩ := hunh
    exact ((healthLoop_snd _ _).mp htrue i) hi
  simp only [gateAndFuse]
  rw [if_pos hgate, hflag]
  simp

lemma gateAndFuse_healthy (ac : AxisCalc) (axis : Fin 2) (st : EkfState)
    (kArr : Fin 24 → ℚ) (hgate : ac.test_ratio ≤ 1)
    (hh : ∀ i, ¬ st.P i i < mkKHP kArr ac.H st.P i i) :
    gateAndFuse ac axis st kArr =
      { st with
        P := fixCovarianceErrors
          (fun r c => st.P r c - mkKHP kArr ac.H st.P r c),
        x := fuse st.x kArr (st.drag_innov axis) } := by
  have hflag : (healthLoop st.P (mkKHP kArr ac.H st.P)).2 = true :=
    (healthLoop_snd _ _).mpr hh
  simp only [gateAndFuse]
  rw [if_pos hgate, hflag]
  rw [healthLoop_fst_healthy _ _ hh]
  simp

lemma axisStep_of_abort (sqrtf : ℚ → ℚ) (p : DragParams) (accelXY : Fin 2 → ℚ)
    (pre : StateVec) (rwb : Fin 3 → ℚ) (axis : Fin 2) (st : EkfState)
    (kArr : Fin 24 → ℚ)
    (hcond : (axisCalcOf sqrtf p accelXY pre st.x st.P rwb axis).innov_var < rAcc p) :
    axisStep sqrtf p accelXY pre rwb axis st kArr =
      (abortResult st axis (axisCalcOf sqrtf p accelXY pre st.x st.P rwb axis).innov_var,
       kArr, true) := by
  simp only [axisStep]
  rw [if_pos hcond]

lemma axisStep_of_not_abort (sqrtf : ℚ → ℚ) (p : DragParams) (accelXY : Fin 2 → ℚ)
    (pre : StateVec) (rwb : Fin 3 → ℚ) (axis : Fin 2) (st : EkfState)
    (kArr : Fin 24 → ℚ)
    (hcond : ¬ (axisCalcOf sqrtf p accelXY pre st.x st.P rwb axis).innov_var < rAcc p) :
    axisStep sqrtf p accelXY pre rwb axis st kArr =
      (gateAndFuse (axisCalcOf sqrtf p accelXY pre st.x st.P rwb axis) axis
         (diagWritten st axis (axisCalcOf sqrtf p accelXY pre st.x st.P rwb axis))
         (kupd kArr (axisCalcOf sqrtf p accelXY pre st.x st.P rwb axis)),
       kupd kArr (axisCalcOf sqrtf p accelXY pre st.x st.P rwb axis), false) := by
  simp only [axisStep]
  rw [if_neg hcond]

lemma fuseDrag_guard_eq (sqrtf : ℚ → ℚ) (p : DragParams) (accelXY : Fin 2 → ℚ)
    (kInit : Fin 24 → ℚ) (st : EkfState)
    (hb : p.bcoef_x < 1 ∨ p.bcoef_y < 1) :
    fuseDrag sqrtf p accelXY kInit st = st := by
  unfold fuseDrag
  rw [if_pos hb]

lemma fuseDrag_run_eq (sqrtf : ℚ → ℚ) (p : DragParams) (accelXY : Fin 2 → ℚ)
    (kInit : Fin 24 → ℚ) (st : EkfState)
    (hb : ¬ (p.bcoef_x < 1 ∨ p.bcoef_y < 1)) :
    fuseDrag sqrtf p accelXY kInit st =
      (if (axisStep sqrtf p accelXY st.x (relWindBody st.x) 0 st kInit).2.2 then
        (axisStep sqrtf p accelXY st.x (relWindBody st.x) 0 st kInit).1
      else
        (axisStep sqrtf p accelXY st.x (relWindBody st.x) 1
          (axisStep sqrtf p accelXY st.x (relWindBody st.x) 0 st kInit).1
          (axisStep sqrtf p accelXY st.x (relWindBody st.x) 0 st kInit).2.1).1) := by
  unfold fuseDrag
  rw [if_neg hb]

lemma axisCalcOf_zero (sqrtf : ℚ → ℚ) (p : DragParams) (accelXY : Fin 2 → ℚ)
    (pre x : StateVec) (P : Cov) (rwb : Fin 3 → ℚ) :
    axisCalcOf sqrtf p accelXY pre x P rwb 0 = xAxisCalc sqrtf p accelXY pre x P rwb := by
  rfl

lemma axisCalcOf_one (sqrtf : ℚ → ℚ) (p : DragParams) (accelXY : Fin 2 → ℚ)
    (pre x : StateVec) (P : Cov) (rwb : Fin 3 → ℚ) :
    axisCalcOf sqrtf p accelXY pre x P rwb 1 = yAxisCalc sqrtf p accelXY pre x P rwb := by
  rfl

lemma xAxisCalc_mea_acc (sqrtf : ℚ → ℚ) (p : DragParams) (accelXY : Fin 2 → ℚ)
    (pre x : StateVec) (P : Cov) (rwb : Fin 3 → ℚ) :
    (xAxisCalc sqrtf p accelXY pre x P rwb).mea_acc =
      accelXY 0 - x 13 / p.dt_ekf_avg := rfl

lemma yAxisCalc_mea_acc (sqrtf : ℚ → ℚ) (p : DragParams) (accelXY : Fin 2 → ℚ)
    (pre x : StateVec) (P : Cov) (rwb : Fin 3 → ℚ) :
    (yAxisCalc sqrtf p accelXY pre x P rwb).mea_acc =
      accelXY 1 - x 14 / p.dt_ekf_avg := rfl

lemma xAxisCalc_predAccel (sqrtf : ℚ → ℚ) (p : DragParams) (accelXY : Fin 2 → ℚ)
    (pre x : StateVec) (P : Cov) (rwb : Fin 3 → ℚ) :
    (xAxisCalc sqrtf p accelXY pre x P rwb).predAccel =
      -(1 / p.bcoef_x) * (1/2) * rhoOf p * (rwb 0 * rwb 0) *
        (if 0 ≤ rwb 0 then 1 else -1) := rfl

lemma yAxisCalc_predAccel (sqrtf : ℚ → ℚ) (p : DragParams) (accelXY : Fin 2 → ℚ)
    (pre x : StateVec) (P : Cov) (rwb : Fin 3 → ℚ) :
    (yAxisCalc sqrtf p accelXY pre x P rwb).predAccel =
      -(1 / p.bcoef_y) * (1/2) * rhoOf p * (rwb 1 * rwb 1) *
        (if 0 ≤ rwb 1 then 1 else -1) := rfl

lemma xAxisCalc_innov (sqrtf : ℚ → ℚ) (p : DragParams) (accelXY : Fin 2 → ℚ)
    (pre x : StateVec) (P : Cov) (rwb : Fin 3 → ℚ) :
    (xAxisCalc sqrtf p accelXY pre x P rwb).innov =
      (xAxisCalc sqrtf p accelXY pre x P rwb).predAccel -
      (xAxisCalc sqrtf p accelXY pre x P rwb).mea_acc := rfl

lemma yAxisCalc_innov (sqrtf : ℚ → ℚ) (p : DragParams) (accelXY : Fin 2 → ℚ)
    (pre x : StateVec) (P : Cov) (rwb : Fin 3 → ℚ) :
    (yAxisCalc sqrtf p accelXY pre x P rwb).innov =
      (yAxisCalc sqrtf p accelXY pre x P rwb).predAccel -
      (yAxisCalc sqrtf p accelXY pre x P rwb).mea_acc := rfl

lemma xAxisCalc_test_ratio (sqrtf : ℚ → ℚ) (p : DragParams) (accelXY : Fin 2 → ℚ)
    (pre x : StateVec) (P : Cov) (rwb : Fin 3 → ℚ) :
    (xAxisCalc sqrtf p accelXY pre x P rwb).test_ratio =
      (xAxisCalc sqrtf p accelXY pre x P rwb).innov *
      (xAxisCalc sqrtf p accelXY pre x P rwb).innov /
      (25 * (xAxisCalc sqrtf p accelXY pre x P rwb).innov_var) := rfl

lemma yAxisCalc_test_ratio (sqrtf : ℚ → ℚ) (p : DragParams) (accelXY : Fin 2 → ℚ)
    (pre x : StateVec) (P : Cov) (rwb : Fin 3 → ℚ) :
    (yAxisCalc sqrtf p accelXY pre x P rwb).test_ratio =
      (yAxisCalc sqrtf p accelXY pre x P rwb).innov *
      (yAxisCalc sqrtf p accelXY pre x P rwb).innov /
      (25 * (yAxisCalc sqrtf p accelXY pre x P rwb).innov_var) := rfl

lemma relWindBody_hover (x : StateVec) (h4 : x 4 = 0) (h5 : x 5 = 0)
    (h6 : x 6 = 0) (h22 : x 22 = 0) (h23 : x 23 = 0) :
    ∀ j, relWindBody x j = 0 := by
  intro j
  simp only [relWindBody]
  rw [h4, h5, h6, h22, h23]
  ring

lemma xAxisCalc_hover (sqrtf : ℚ → ℚ) (p : DragParams) (accelXY : Fin 2 → ℚ)
    (pre x : StateVec) (P : Cov) (rwb : Fin 3 → ℚ)
    (hr : rwb 0 = 0) (ha : accelXY 0 = 0) (hb : x 13 = 0) :
    (xAxisCalc sqrtf p accelXY pre x P rwb).predAccel = 0 ∧
    (xAxisCalc sqrtf p accelXY pre x P rwb).innov = 0 ∧
    (xAxisCalc sqrtf p accelXY pre x P rwb).test_ratio = 0 := by
  have hpred : (xAxisCalc sqrtf p accelXY pre x P rwb).predAccel = 0 := by
    rw [xAxisCalc_predAccel, hr]
    simp
  have hmea : (xAxisCalc sqrtf p accelXY pre x P rwb).mea_acc = 0 := by
    rw [xAxisCalc_mea_acc, ha, hb]
    simp
  have hinnov : (xAxisCalc sqrtf p accelXY pre x P rwb).innov = 0 := by
    rw [xAxisCalc_innov, hpred, hmea]
    simp
  refine ⟨hpred, hinnov, ?_⟩
  rw [xAxisCalc_test_ratio, hinnov]
  simp

lemma yAxisCalc_hover (sqrtf : ℚ → ℚ) (p : DragParams) (accelXY : Fin 2 → ℚ)
    (pre x : StateVec) (P : Cov) (rwb : Fin 3 → ℚ)
    (hr : rwb 1 = 0) (ha : accelXY 1 = 0) (hb : x 14 = 0) :
    (yAxisCalc sqrtf p accelXY pre x P rwb).predAccel = 0 ∧
    (yAxisCalc sqrtf p accelXY pre x P rwb).innov = 0 ∧
    (yAxisCalc sqrtf p accelXY pre x P rwb).test_ratio = 0 := by
  have hpred : (yAxisCalc sqrtf p accelXY pre x P rwb).predAccel = 0 := by
    rw [yAxisCalc_predAccel, hr]
    simp
  have hmea : (yAxisCalc sqrtf p accelXY pre x P rwb).mea_acc = 0 := by
    rw [yAxisCalc_mea_acc, ha, hb]
    simp
  have hinnov : (yAxisCalc sqrtf p accelXY pre x P rwb).innov = 0 := by
    rw [yAxisCalc_innov, hpred, hmea]
    simp
  refine ⟨hpred, hinnov, ?_⟩
  rw [yAxisCalc_test_ratio, hinnov]
  simp

lemma diagWritten_x (st : EkfState) (axis : Fin 2) (ac : AxisCalc) :
    (diagWritten st axis ac).x = st.x := rfl

lemma diagWritten_P (st : EkfState) (axis : Fin 2) (ac : AxisCalc) :
    (diagWritten st axis ac).P = st.P := rfl

lemma diagWritten_innov_self (st : EkfState) (axis : Fin 2) (ac : AxisCalc) :
    (diagWritten st axis ac).drag_innov axis = ac.innov := by
  simp [diagWritten]

lemma diagWritten_var_self (st : EkfState) (axis : Fin 2) (ac : AxisCalc) :
    (diagWritten st axis ac).drag_innov_var axis = ac.innov_var := by
  simp [diagWritten]

lemma diagWritten_ratio_self (st : EkfState) (axis : Fin 2) (ac : AxisCalc) :
    (diagWritten st axis ac).drag_test_ratio axis = ac.test_ratio := by
  simp [diagWritten]

lemma gateAndFuse_x_innov_zero (ac : AxisCalc) (axis : Fin 2) (st : EkfState)
    (kArr : Fin 24 → ℚ) (h : st.drag_innov axis = 0) :
    (gateAndFuse ac axis st kArr).x = st.x := by
  simp only [gateAndFuse]
  split_ifs with h1 h2
  · show fuse st.x kArr (st.drag_innov axis) = st.x
    rw [h, fuse_innov_zero]
  · rfl
  · rfl

lemma axisStep_x_innov_zero (sqrtf : ℚ → ℚ) (p : DragParams) (accelXY : Fin 2 → ℚ)
    (pre : StateVec) (rwb : Fin 3 → ℚ) (axis : Fin 2) (st : EkfState)
    (kArr : Fin 24 → ℚ)
    (hz : (axisCalcOf sqrtf p accelXY pre st.x st.P rwb axis).innov = 0) :
    (axisStep sqrtf p accelXY pre rwb axis st kArr).1.x = st.x := by
  by_cases hc : (axisCalcOf sqrtf p accelXY pre st.x st.P rwb axis).innov_var < rAcc p
  · rw [axisStep_of_abort sqrtf p accelXY pre rwb axis st kArr hc]
    rfl
  · rw [axisStep_of_not_abort sqrtf p accelXY pre rwb axis st kArr hc]
    show (gateAndFuse _ axis (diagWritten st axis _) _).x = st.x
    rw [gateAndFuse_x_innov_zero _ _ _ _ (by rw [diagWritten_innov_self]; exact hz)]
    rfl

lemma axisCalcOf_test_ratio (sqrtf : ℚ → ℚ) (p : DragParams) (accelXY : Fin 2 → ℚ)
    (pre x : StateVec) (P : Cov) (rwb : Fin 3 → ℚ) (axis : Fin 2) :
    (axisCalcOf sqrtf p accelXY pre x P rwb axis).test_ratio =
      (axisCalcOf sqrtf p accelXY pre x P rwb axis).innov *
      (axisCalcOf sqrtf p accelXY pre x P rwb axis).innov /
      (25 * (axisCalcOf sqrtf p accelXY pre x P rwb axis).innov_var) := by
  unfold axisCalcOf
  split_ifs
  · exact xAxisCalc_test_ratio sqrtf p accelXY pre x P rwb
  · exact yAxisCalc_test_ratio sqrtf p accelXY pre x P rwb

lemma axisStep_diag (sqrtf : ℚ → ℚ) (p : DragParams) (accelXY : Fin 2 → ℚ)
    (pre : StateVec) (rwb : Fin 3 → ℚ) (axis : Fin 2) (st : EkfState)
    (kArr : Fin 24 → ℚ)
    (hcond : ¬ (axisCalcOf sqrtf p accelXY pre st.x st.P rwb axis).innov_var < rAcc p) :
    (axisStep sqrtf p accelXY pre rwb axis st kArr).1.drag_innov =
      Function.update st.drag_innov axis
        (axisCalcOf sqrtf p accelXY pre st.x st.P rwb axis).innov ∧
    (axisStep sqrtf p accelXY pre rwb axis st kArr).1.drag_test_ratio =
      Function.update st.drag_test_ratio axis
        (axisCalcOf sqrtf p accelXY pre st.x st.P rwb axis).test_ratio ∧
    (axisStep sqrtf p accelXY pre rwb axis st kArr).1.drag_innov_var =
      Function.update st.drag_innov_var axis
        (axisCalcOf sqrtf p accelXY pre st.x st.P rwb axis).innov_var := by
  rw [axisStep_of_not_abort sqrtf p accelXY pre rwb axis st kArr hcond]
  obtain ⟨h1, h2, h3⟩ := gateAndFuse_drag_fields
    (axisCalcOf sqrtf p accelXY pre st.x st.P rwb axis) axis
    (diagWritten st axis (axisCalcOf sqrtf p accelXY pre st.x st.P rwb axis))
    (kupd kArr (axisCalcOf sqrtf p accelXY pre st.x st.P rwb axis))
  exact ⟨h1.trans rfl, h3.trans rfl, h2.trans rfl⟩

/-- Claim C7: for every prior state, covariance and measurement sample,
if either configured ballistic coefficient is below the usable minimum
1.0, the entire fusion call is a no-op for both axes: the state vector,
covariance matrix and published diagnostics are identical before and
after the call (a disabled feature, not an error). -/
theorem c7_bcoef_guard_noop (sqrtf : ℚ → ℚ) (p : DragParams)
    (accelXY : Fin 2 → ℚ) (kInit : Fin 24 → ℚ) (st : EkfState)
    (h : p.bcoef_x < 1 ∨ p.bcoef_y < 1) :
    fuseDrag sqrtf p accelXY kInit st = st :=
  fuseDrag_guard_eq sqrtf p accelXY kInit st h

/-- Witness for C7 at a concrete input: `bcoef_x = 1/2 < 1`, so the call
returns the state unchanged. -/
theorem c7_witness :
    (pHalf.bcoef_x < 1 ∨ pHalf.bcoef_y < 1) ∧
    fuseDrag sqrtTable pHalf zeroAcc zeroK hoverState = hoverState :=
  ⟨Or.inl (by norm_num [pHalf]),
   c7_bcoef_guard_noop sqrtTable pHalf zeroAcc zeroK hoverState
     (Or.inl (by norm_num [pHalf]))⟩

/-- Claim C4: when an axis passes the consistency gate but the candidate
correction would drive some covariance diagonal entry negative
(`P(i,i) < KHP(i,i)`), the subtraction `P - KHP` is skipped entirely,
every offending state's covariance row and column are zeroed and its
variance reset to zero, and the mean-state correction for the axis is
skipped. -/
theorem c4_unhealthy_repair (ac : AxisCalc) (axis : Fin 2) (st : EkfState)
    (kArr : Fin 24 → ℚ)
    (hgate : ac.test_ratio ≤ 1)
    (hunh : ∃ i, st.P i i < mkKHP kArr ac.H st.P i i) :
    (gateAndFuse ac axis st kArr).x = st.x ∧
    ∀ r c, (gateAndFuse ac axis st kArr).P r c =
      if st.P r r < mkKHP kArr ac.H st.P r r ∨ st.P c c < mkKHP kArr ac.H st.P c c
      then 0 else st.P r c := by
  rw [gateAndFuse_unhealthy ac axis st kArr hgate hunh]
  exact ⟨rfl, fun r c => healthLoop_fst st.P (mkKHP kArr ac.H st.P) r c⟩

/-- Witness for C4 at a concrete input: gate passes (test ratio 1/900)
but `KHP(22,22) = 16/9 > P(22,22) = 1`, so state 22 is decorrelated and
the update skipped. -/
theorem c4_witness :
    ((xAxisCalc sqrtTable pNom accHalf qId qId pC4cov (relWindBody qId)).test_ratio ≤ 1 ∧
     (∃ i, stC4.P i i <
        mkKHP (kupd zeroK (xAxisCalc sqrtTable pNom accHalf qId qId pC4cov (relWindBody qId)))
          (xAxisCalc sqrtTable pNom accHalf qId qId pC4cov (relWindBody qId)).H stC4.P i i)) ∧
    ((gateAndFuse (xAxisCalc sqrtTable pNom accHalf qId qId pC4cov (relWindBody qId)) 0 stC4
        (kupd zeroK (xAxisCalc sqrtTable pNom accHalf qId qId pC4cov (relWindBody qId)))).x = stC4.x ∧
     ∀ r c, (gateAndFuse (xAxisCalc sqrtTable pNom accHalf qId qId pC4cov (relWindBody qId)) 0 stC4
        (kupd zeroK (xAxisCalc sqrtTable pNom accHalf qId qId pC4cov (relWindBody qId)))).P r c =
      if stC4.P r r <
           mkKHP (kupd zeroK (xAxisCalc sqrtTable pNom accHalf qId qId pC4cov (relWindBody qId)))
             (xAxisCalc sqrtTable pNom accHalf qId qId pC4cov (relWindBody qId)).H stC4.P r r ∨
         stC4.P c c <
           mkKHP (kupd zeroK (xAxisCalc sqrtTable pNom accHalf qId qId pC4cov (relWindBody qId)))
             (xAxisCalc sqrtTable pNom accHalf qId qId pC4cov (relWindBody qId)).H stC4.P c c
      then 0 else stC4.P r c) := by
  have hH : (xAxisCalc sqrtTable pNom accHalf qId qId pC4cov (relWindBody qId)).H =
      (fun j => if j = 4 then -1 else if j = 7 then 1 else 0) := by
    funext j
    fin_cases j <;>
      norm_num +decide [xAxisCalc, sqrtTable, pNom, accHalf, qId, pC4cov, relWindBody,
        quatToInverseRotMat, rAcc, rhoOf, abs_of_nonneg, max_def]
  have hk22 : (xAxisCalc sqrtTable pNom accHalf qId qId pC4cov (relWindBody qId)).k22 = 4/9 := by
    norm_num +decide [xAxisCalc, sqrtTable, pNom, accHalf, qId, pC4cov, relWindBody,
      quatToInverseRotMat, rAcc, rhoOf, abs_of_nonneg, max_def]
  have hk23 : (xAxisCalc sqrtTable pNom accHalf qId qId pC4cov (relWindBody qId)).k23 = 0 := by
    norm_num +decide [xAxisCalc, sqrtTable, pNom, accHalf, qId, pC4cov, relWindBody,
      quatToInverseRotMat, rAcc, rhoOf, abs_of_nonneg, max_def]
  have hgate : (xAxisCalc sqrtTable pNom accHalf qId qId pC4cov (relWindBody qId)).test_ratio ≤ 1 := by
    norm_num +decide [xAxisCalc, sqrtTable, pNom, accHalf, qId, pC4cov, relWindBody,
      quatToInverseRotMat, rAcc, rhoOf, abs_of_nonneg, max_def]
  have hunh : ∃ i, stC4.P i i <
      mkKHP (kupd zeroK (xAxisCalc sqrtTable pNom accHalf qId qId pC4cov (relWindBody qId)))
        (xAxisCalc sqrtTable pNom accHalf qId qId pC4cov (relWindBody qId)).H stC4.P i i := by
    refine ⟨22, ?_⟩
    norm_num +decide [mkKHP, kupd, Function.update_apply, hH, hk22, hk23, stC4, pC4cov, zeroK]
  exact ⟨⟨hgate, hunh⟩,
    c4_unhealthy_repair _ 0 stC4 _ hgate hunh⟩

/-- Claim C5: for every accepted (gate passed) and healthy update, the
committed covariance is symmetric and has non-negative diagonal entries;
in particular `KHP(i,i) ≤ P(i,i)` held for every state index at the
moment of the commit. -/
theorem c5_committed_cov (ac : AxisCalc) (axis : Fin 2) (st : EkfState)
    (kArr : Fin 24 → ℚ)
    (hgate : ac.test_ratio ≤ 1)
    (hh : ∀ i, ¬ st.P i i < mkKHP kArr ac.H st.P i i) :
    (∀ r c, (gateAndFuse ac axis st kArr).P r c = (gateAndFuse ac axis st kArr).P c r) ∧
    (∀ i, 0 ≤ (gateAndFuse ac axis st kArr).P i i) ∧
    (∀ i, mkKHP kArr ac.H st.P i i ≤ st.P i i) := by
  rw [gateAndFuse_healthy ac axis st kArr hgate hh]
  refine ⟨fun r c => ?_, fun i => ?_, fun i => not_lt.mp (hh i)⟩
  · dsimp only
    simp only [fixCovarianceErrors]
    ring
  · dsimp only
    simp only [fixCovarianceErrors]
    have := not_lt.mp (hh i)
    linarith

/-- Witness for C5 at a concrete input: the hover state with identity
covariance and measurement 1/2 passes the gate (test ratio 1/300) and
the health check, and the committed covariance is symmetric with
non-negative diagonal. -/
theorem c5_witness :
    ((xAxisCalc sqrtTable pNom accHalf qId qId idCov (relWindBody qId)).test_ratio ≤ 1 ∧
     (∀ i, ¬ hoverState.P i i <
        mkKHP (kupd zeroK (xAxisCalc sqrtTable pNom accHalf qId qId idCov (relWindBody qId)))
          (xAxisCalc sqrtTable pNom accHalf qId qId idCov (relWindBody qId)).H hoverState.P i i)) ∧
    ((∀ r c, (gateAndFuse (xAxisCalc sqrtTable pNom accHalf qId qId idCov (relWindBody qId)) 0
        hoverState
        (kupd zeroK (xAxisCalc sqrtTable pNom accHalf qId qId idCov (relWindBody qId)))).P r c =
      (gateAndFuse (xAxisCalc sqrtTable pNom accHalf qId qId idCov (relWindBody qId)) 0
        hoverState
        (kupd zeroK (xAxisCalc sqrtTable pNom accHalf qId qId idCov (relWindBody qId)))).P c r) ∧
     (∀ i, 0 ≤ (gateAndFuse (xAxisCalc sqrtTable pNom accHalf qId qId idCov (relWindBody qId)) 0
        hoverState
        (kupd zeroK (xAxisCalc sqrtTable pNom accHalf qId qId idCov (relWindBody qId)))).P i i) ∧
     (∀ i, mkKHP (kupd zeroK (xAxisCalc sqrtTable pNom accHalf qId qId idCov (relWindBody qId)))
        (xAxisCalc sqrtTable pNom accHalf qId qId idCov (relWindBody qId)).H hoverState.P i i ≤
        hoverState.P i i)) := by
  have hH : (xAxisCalc sqrtTable pNom accHalf qId qId idCov (relWindBody qId)).H =
      (fun j => if j = 4 then -1 else if j = 7 then 1 else 0) := by
    funext j
    fin_cases j <;>
      norm_num +decide [xAxisCalc, sqrtTable, pNom, accHalf, qId, idCov, relWindBody,
        quatToInverseRotMat, rAcc, rhoOf, abs_of_nonneg, max_def]
  have hk22 : (xAxisCalc sqrtTable pNom accHalf qId qId idCov (relWindBody qId)).k22 = 1/3 := by
    norm_num +decide [xAxisCalc, sqrtTable, pNom, accHalf, qId, idCov, relWindBody,
      quatToInverseRotMat, rAcc, rhoOf, abs_of_nonneg, max_def]
  have hk23 : (xAxisCalc sqrtTable pNom accHalf qId qId idCov (relWindBody qId)).k23 = 0 := by
    norm_num +decide [xAxisCalc, sqrtTable, pNom, accHalf, qId, idCov, relWindBody,
      quatToInverseRotMat, rAcc, rhoOf, abs_of_nonneg, max_def]
  have hgate : (xAxisCalc sqrtTable pNom accHalf qId qId idCov (relWindBody qId)).test_ratio ≤ 1 := by
    norm_num +decide [xAxisCalc, sqrtTable, pNom, accHalf, qId, idCov, relWindBody,
      quatToInverseRotMat, rAcc, rhoOf, abs_of_nonneg, max_def]
  have hh : ∀ i, ¬ hoverState.P i i <
      mkKHP (kupd zeroK (xAxisCalc sqrtTable pNom accHalf qId qId idCov (relWindBody qId)))
        (xAxisCalc sqrtTable pNom accHalf qId qId idCov (relWindBody qId)).H hoverState.P i i := by
    intro i
    fin_cases i <;>
      norm_num +decide [mkKHP, kupd, Function.update_apply, hH, hk22, hk23, hoverState, idCov, zeroK]
  exact ⟨⟨hgate, hh⟩, c5_committed_cov _ 0 hoverState _ hgate hh⟩

/-- Claim C6: for a processed axis (conditioning check passed), the
published test ratio equals `innovation^2 / (25 * S)`; the innovation and
innovation variance are always published; if the test ratio exceeds 1
the state vector and covariance are left unmodified for that axis while
the diagnostics are still written; and if the test ratio passes (and the
covariance health check holds) the state correction is applied. -/
theorem c6_consistency_gate (sqrtf : ℚ → ℚ) (p : DragParams) (accelXY : Fin 2 → ℚ)
    (pre : StateVec) (rwb : Fin 3 → ℚ) (axis : Fin 2) (st : EkfState)
    (kArr : Fin 24 → ℚ)
    (hcond : ¬ (axisCalcOf sqrtf p accelXY pre st.x st.P rwb axis).innov_var < rAcc p) :
    (axisStep sqrtf p accelXY pre rwb axis st kArr).1.drag_test_ratio axis =
      (axisCalcOf sqrtf p accelXY pre st.x st.P rwb axis).innov *
      (axisCalcOf sqrtf p accelXY pre st.x st.P rwb axis).innov /
      (25 * (axisCalcOf sqrtf p accelXY pre st.x st.P rwb axis).innov_var) ∧
    (axisStep sqrtf p accelXY pre rwb axis st kArr).1.drag_innov axis =
      (axisCalcOf sqrtf p accelXY pre st.x st.P rwb axis).innov ∧
    (axisStep sqrtf p accelXY pre rwb axis st kArr).1.drag_innov_var axis =
      (axisCalcOf sqrtf p accelXY pre st.x st.P rwb axis).innov_var ∧
    (1 < (axisCalcOf sqrtf p accelXY pre st.x st.P rwb axis).test_ratio →
      (axisStep sqrtf p accelXY pre rwb axis st kArr).1.x = st.x ∧
      (axisStep sqrtf p accelXY pre rwb axis st kArr).1.P = st.P) ∧
    ((axisCalcOf sqrtf p accelXY pre st.x st.P rwb axis).test_ratio ≤ 1 →
      (∀ i, ¬ st.P i i <
        mkKHP (kupd kArr (axisCalcOf sqrtf p accelXY pre st.x st.P rwb axis))
          (axisCalcOf sqrtf p accelXY pre st.x st.P rwb axis).H st.P i i) →
      (axisStep sqrtf p accelXY pre rwb axis st kArr).1.x =
        fuse st.x (kupd kArr (axisCalcOf sqrtf p accelXY pre st.x st.P rwb axis))
          (axisCalcOf sqrtf p accelXY pre st.x st.P rwb axis).innov) := by
  obtain ⟨hi, hr, hv⟩ := axisStep_diag sqrtf p accelXY pre rwb axis st kArr hcond
  refine ⟨?_, ?_, ?_, ?_, ?_⟩
  · rw [hr, Function.update_same, axisCalcOf_test_ratio]
  · rw [hi, Function.update_same]
  · rw [hv, Function.update_same]
  · intro hgt
    rw [axisStep_of_not_abort sqrtf p accelXY pre rwb axis st kArr hcond,
      gateAndFuse_rejected _ _ _ _ (not_le.mpr hgt)]
    exact ⟨rfl, rfl⟩
  · intro hle hh
    rw [axisStep_of_not_abort sqrtf p accelXY pre rwb axis st kArr hcond,
      gateAndFuse_healthy (axisCalcOf sqrtf p accelXY pre st.x st.P rwb axis) axis
        (diagWritten st axis (axisCalcOf sqrtf p accelXY pre st.x st.P rwb axis))
        (kupd kArr (axisCalcOf sqrtf p accelXY pre st.x st.P rwb axis)) hle hh]
    dsimp only
    rw [diagWritten_innov_self, diagWritten_x]

/-- Witness for C6 at a concrete input: with zero covariance and body-X
measurement 8 the conditioning check passes (variance exactly `R_ACC`)
and the test ratio is 64/25 > 1, so the gate rejects. -/
theorem c6_witness :
    (¬ (axisCalcOf sqrtTable pNom accEight qId stC6.x stC6.P (relWindBody qId) 0).innov_var <
        rAcc pNom) ∧
    ((axisStep sqrtTable pNom accEight qId (relWindBody qId) 0 stC6 zeroK).1.drag_test_ratio 0 =
      (axisCalcOf sqrtTable pNom accEight qId stC6.x stC6.P (relWindBody qId) 0).innov *
      (axisCalcOf sqrtTable pNom accEight qId stC6.x stC6.P (relWindBody qId) 0).innov /
      (25 * (axisCalcOf sqrtTable pNom accEight qId stC6.x stC6.P (relWindBody qId) 0).innov_var) ∧
    (axisStep sqrtTable pNom accEight qId (relWindBody qId) 0 stC6 zeroK).1.drag_innov 0 =
      (axisCalcOf sqrtTable pNom accEight qId stC6.x stC6.P (relWindBody qId) 0).innov ∧
    (axisStep sqrtTable pNom accEight qId (relWindBody qId) 0 stC6 zeroK).1.drag_innov_var 0 =
      (axisCalcOf sqrtTable pNom accEight qId stC6.x stC6.P (relWindBody qId) 0).innov_var ∧
    (1 < (axisCalcOf sqrtTable pNom accEight qId stC6.x stC6.P (relWindBody qId) 0).test_ratio →
      (axisStep sqrtTable pNom accEight qId (relWindBody qId) 0 stC6 zeroK).1.x = stC6.x ∧
      (axisStep sqrtTable pNom accEight qId (relWindBody qId) 0 stC6 zeroK).1.P = stC6.P) ∧
    ((axisCalcOf sqrtTable pNom accEight qId stC6.x stC6.P (relWindBody qId) 0).test_ratio ≤ 1 →
      (∀ i, ¬ stC6.P i i <
        mkKHP (kupd zeroK (axisCalcOf sqrtTable pNom accEight qId stC6.x stC6.P (relWindBody qId) 0))
          (axisCalcOf sqrtTable pNom accEight qId stC6.x stC6.P (relWindBody qId) 0).H stC6.P i i) →
      (axisStep sqrtTable pNom accEight qId (relWindBody qId) 0 stC6 zeroK).1.x =
        fuse stC6.x (kupd zeroK (axisCalcOf sqrtTable pNom accEight qId stC6.x stC6.P (relWindBody qId) 0))
          (axisCalcOf sqrtTable pNom accEight qId stC6.x stC6.P (relWindBody qId) 0).innov)) := by
  have hcond : ¬ (axisCalcOf sqrtTable pNom accEight qId stC6.x stC6.P (relWindBody qId) 0).innov_var <
      rAcc pNom := by
    rw [axisCalcOf_zero]
    norm_num +decide [xAxisCalc, sqrtTable, pNom, accEight, qId, stC6, zeroCov, relWindBody,
      quatToInverseRotMat, rAcc, rhoOf, abs_of_nonneg, max_def]
  exact ⟨hcond, c6_consistency_gate sqrtTable pNom accEight qId (relWindBody qId) 0 stC6 zeroK hcond⟩

/-- Claim C8 (amended): whenever an axis's computed innovation variance
falls below the noise variance, zero mutation occurs to state and
covariance, and the axis's innovation variance is still computed and
published; however the innovation and test ratio of the axis are NOT
updated — the function returns before computing them. -/
theorem c8_amended_abort (sqrtf : ℚ → ℚ) (p : DragParams) (accelXY : Fin 2 → ℚ)
    (pre : StateVec) (rwb : Fin 3 → ℚ) (axis : Fin 2) (st : EkfState)
    (kArr : Fin 24 → ℚ)
    (hcond : (axisCalcOf sqrtf p accelXY pre st.x st.P rwb axis).innov_var < rAcc p) :
    (axisStep sqrtf p accelXY pre rwb axis st kArr).1.x = st.x ∧
    (axisStep sqrtf p accelXY pre rwb axis st kArr).1.P = st.P ∧
    (axisStep sqrtf p accelXY pre rwb axis st kArr).1.drag_innov = st.drag_innov ∧
    (axisStep sqrtf p accelXY pre rwb axis st kArr).1.drag_test_ratio = st.drag_test_ratio ∧
    (axisStep sqrtf p accelXY pre rwb axis st kArr).1.drag_innov_var axis =
      (axisCalcOf sqrtf p accelXY pre st.x st.P rwb axis).innov_var ∧
    (axisStep sqrtf p accelXY pre rwb axis st kArr).2.2 = true := by
  rw [axisStep_of_abort sqrtf p accelXY pre rwb axis st kArr hcond]
  exact ⟨rfl, rfl, rfl, rfl, by simp [abortResult], rfl⟩

/-- Counterexample for C8 as frozen: at a concrete input whose X-axis
innovation variance computes to 24/25 < R_ACC = 1, the abort fires and
the X-axis innovation and test ratio are NOT computed: they keep their
prior sentinel value 99 (only the innovation variance is published),
refuting "the innovation ... and test ratio ... are nevertheless still
computed". -/
theorem c8_counterexample :
    (fuseDrag sqrtTable pNom zeroAcc zeroK stC3).drag_innov_var 0 < rAcc pNom ∧
    (fuseDrag sqrtTable pNom zeroAcc zeroK stC3).drag_innov 0 = 99 ∧
    (fuseDrag sqrtTable pNom zeroAcc zeroK stC3).drag_test_ratio 0 = 99 ∧
    (fuseDrag sqrtTable pNom zeroAcc zeroK stC3).x = stC3.x ∧
    (fuseDrag sqrtTable pNom zeroAcc zeroK stC3).P = stC3.P := by
  have hb : ¬ (pNom.bcoef_x < 1 ∨ pNom.bcoef_y < 1) := by norm_num [pNom]
  have hV : (xAxisCalc sqrtTable pNom zeroAcc stC3.x stC3.x stC3.P (relWindBody stC3.x)).innov_var =
      24/25 := by
    norm_num +decide [xAxisCalc, sqrtTable, pNom, zeroAcc, stC3, xC3, pC3cov, relWindBody,
      quatToInverseRotMat, rAcc, rhoOf, abs_of_nonneg, max_def]
  have hcond : (axisCalcOf sqrtTable pNom zeroAcc stC3.x stC3.x stC3.P (relWindBody stC3.x) 0).innov_var <
      rAcc pNom := by
    rw [axisCalcOf_zero, hV]
    norm_num [rAcc, pNom]
  have hrun := fuseDrag_run_eq sqrtTable pNom zeroAcc zeroK stC3 hb
  rw [axisStep_of_abort sqrtTable pNom zeroAcc stC3.x (relWindBody stC3.x) 0 stC3 zeroK hcond,
    if_pos rfl] at hrun
  rw [hrun, axisCalcOf_zero, hV]
  refine ⟨by norm_num [abortResult, Function.update_apply, stC3, diag99, rAcc, pNom], ?_, ?_, rfl, rfl⟩
  · norm_num [abortResult, stC3, diag99]
  · norm_num [abortResult, stC3, diag99]

/-- Witness for the amended C8 at the same concrete input, applying the
amended theorem with its conditioning hypothesis discharged. -/
theorem c8_witness :
    ((axisCalcOf sqrtTable pNom zeroAcc stC3.x stC3.x stC3.P (relWindBody stC3.x) 0).innov_var <
      rAcc pNom) ∧
    ((axisStep sqrtTable pNom zeroAcc stC3.x (relWindBody stC3.x) 0 stC3 zeroK).1.x = stC3.x ∧
     (axisStep sqrtTable pNom zeroAcc stC3.x (relWindBody stC3.x) 0 stC3 zeroK).1.P = stC3.P ∧
     (axisStep sqrtTable pNom zeroAcc stC3.x (relWindBody stC3.x) 0 stC3 zeroK).1.drag_innov =
       stC3.drag_innov ∧
     (axisStep sqrtTable pNom zeroAcc stC3.x (relWindBody stC3.x) 0 stC3 zeroK).1.drag_test_ratio =
       stC3.drag_test_ratio ∧
     (axisStep sqrtTable pNom zeroAcc stC3.x (relWindBody stC3.x) 0 stC3 zeroK).1.drag_innov_var 0 =
       (axisCalcOf sqrtTable pNom zeroAcc stC3.x stC3.x stC3.P (relWindBody stC3.x) 0).innov_var ∧
     (axisStep sqrtTable pNom zeroAcc stC3.x (relWindBody stC3.x) 0 stC3 zeroK).2.2 = true) := by
  have hV : (xAxisCalc sqrtTable pNom zeroAcc stC3.x stC3.x stC3.P (relWindBody stC3.x)).innov_var =
      24/25 := by
    norm_num +decide [xAxisCalc, sqrtTable, pNom, zeroAcc, stC3, xC3, pC3cov, relWindBody,
      quatToInverseRotMat, rAcc, rhoOf, abs_of_nonneg, max_def]
  have hcond : (axisCalcOf sqrtTable pNom zeroAcc stC3.x stC3.x stC3.P (relWindBody stC3.x) 0).innov_var <
      rAcc pNom := by
    rw [axisCalcOf_zero, hV]
    norm_num [rAcc, pNom]
  exact ⟨hcond, c8_amended_abort sqrtTable pNom zeroAcc stC3.x (relWindBody stC3.x) 0 stC3 zeroK hcond⟩

/-- Counterexample for C3 as frozen: at a concrete input whose X-axis
innovation variance computes below R_ACC, the whole call returns: the
body-Y axis is NOT processed in the same call — all of its diagnostics
keep their prior sentinel value 99 — refuting "processing still proceeds
to the other axis independently". -/
theorem c3_counterexample :
    (fuseDrag sqrtTable pNom zeroAcc zeroK stC3).drag_innov_var 0 < rAcc pNom ∧
    (fuseDrag sqrtTable pNom zeroAcc zeroK stC3).drag_innov_var 1 = 99 ∧
    (fuseDrag sqrtTable pNom zeroAcc zeroK stC3).drag_innov 1 = 99 ∧
    (fuseDrag sqrtTable pNom zeroAcc zeroK stC3).drag_test_ratio 1 = 99 := by
  have hb : ¬ (pNom.bcoef_x < 1 ∨ pNom.bcoef_y < 1) := by norm_num [pNom]
  have hV : (xAxisCalc sqrtTable pNom zeroAcc stC3.x stC3.x stC3.P (relWindBody stC3.x)).innov_var =
      24/25 := by
    norm_num +decide [xAxisCalc, sqrtTable, pNom, zeroAcc, stC3, xC3, pC3cov, relWindBody,
      quatToInverseRotMat, rAcc, rhoOf, abs_of_nonneg, max_def]
  have hcond : (axisCalcOf sqrtTable pNom zeroAcc stC3.x stC3.x stC3.P (relWindBody stC3.x) 0).innov_var <
      rAcc pNom := by
    rw [axisCalcOf_zero, hV]
    norm_num [rAcc, pNom]
  have hrun := fuseDrag_run_eq sqrtTable pNom zeroAcc zeroK stC3 hb
  rw [axisStep_of_abort sqrtTable pNom zeroAcc stC3.x (relWindBody stC3.x) 0 stC3 zeroK hcond,
    if_pos rfl] at hrun
  rw [hrun, axisCalcOf_zero, hV]
  refine ⟨by norm_num [abortResult, Function.update_apply, stC3, diag99, rAcc, pNom], ?_, ?_, ?_⟩
  · norm_num +decide [abortResult, Function.update_apply, stC3, diag99]
  · norm_num [abortResult, stC3, diag99]
  · norm_num [abortResult, stC3, diag99]

/-- Claim C3 (amended): if the computed innovation variance of the body-X
axis falls below R_ACC, the whole `fuseDrag` call returns immediately:
no gain is computed, state and covariance are unchanged, the X-axis
innovation variance is still published, but the X-axis innovation and
test ratio are not updated and the body-Y axis is not processed at all. -/
theorem c3_amended_abort_returns (sqrtf : ℚ → ℚ) (p : DragParams) (accelXY : Fin 2 → ℚ)
    (kInit : Fin 24 → ℚ) (st : EkfState)
    (hb : ¬ (p.bcoef_x < 1 ∨ p.bcoef_y < 1))
    (hcond : (xAxisCalc sqrtf p accelXY st.x st.x st.P (relWindBody st.x)).innov_var < rAcc p) :
    fuseDrag sqrtf p accelXY kInit st =
      abortResult st 0 (xAxisCalc sqrtf p accelXY st.x st.x st.P (relWindBody st.x)).innov_var := by
  rw [fuseDrag_run_eq sqrtf p accelXY kInit st hb,
    axisStep_of_abort sqrtf p accelXY st.x (relWindBody st.x) 0 st kInit
      (by rw [axisCalcOf_zero]; exact hcond),
    if_pos rfl]
  rfl

/-- Witness for the amended C3 at the concrete aborting input. -/
theorem c3_witness :
    (¬ (pNom.bcoef_x < 1 ∨ pNom.bcoef_y < 1) ∧
     (xAxisCalc sqrtTable pNom zeroAcc stC3.x stC3.x stC3.P (relWindBody stC3.x)).innov_var <
       rAcc pNom) ∧
    fuseDrag sqrtTable pNom zeroAcc zeroK stC3 =
      abortResult stC3 0
        (xAxisCalc sqrtTable pNom zeroAcc stC3.x stC3.x stC3.P (relWindBody stC3.x)).innov_var := by
  have hb : ¬ (pNom.bcoef_x < 1 ∨ pNom.bcoef_y < 1) := by norm_num [pNom]
  have hV : (xAxisCalc sqrtTable pNom zeroAcc stC3.x stC3.x stC3.P (relWindBody stC3.x)).innov_var =
      24/25 := by
    norm_num +decide [xAxisCalc, sqrtTable, pNom, zeroAcc, stC3, xC3, pC3cov, relWindBody,
      quatToInverseRotMat, rAcc, rhoOf, abs_of_nonneg, max_def]
  have hcond : (xAxisCalc sqrtTable pNom zeroAcc stC3.x stC3.x stC3.P (relWindBody stC3.x)).innov_var <
      rAcc pNom := by
    rw [hV]
    norm_num [rAcc, pNom]
  exact ⟨⟨hb, hcond⟩, c3_amended_abort_returns sqrtTable pNom zeroAcc zeroK stC3 hb hcond⟩

/-- Claim C9: in the zero-wind hover scenario (identity quaternion, zero
velocity, zero wind, zero measurement, zero bias) with the conditioning
checks passing on both axes, the relative wind in body frame is zero, the
predicted specific force and the innovation are zero on both axes, both
published test ratios are zero (so both axes are accepted by the gate),
and the whole mean state — in particular its wind components — is
unchanged by the call. -/
theorem c9_zero_wind_hover (sqrtf : ℚ → ℚ) (p : DragParams) (accelXY : Fin 2 → ℚ)
    (kInit : Fin 24 → ℚ) (st : EkfState)
    (hb : ¬ (p.bcoef_x < 1 ∨ p.bcoef_y < 1))
    (hq0 : st.x 0 = 1) (hq1 : st.x 1 = 0) (hq2 : st.x 2 = 0) (hq3 : st.x 3 = 0)
    (hv4 : st.x 4 = 0) (hv5 : st.x 5 = 0) (hv6 : st.x 6 = 0)
    (hw22 : st.x 22 = 0) (hw23 : st.x 23 = 0)
    (hacc0 : accelXY 0 = 0) (hacc1 : accelXY 1 = 0)
    (hb13 : st.x 13 = 0) (hb14 : st.x 14 = 0)
    (hcond0 : ¬ (xAxisCalc sqrtf p accelXY st.x st.x st.P (relWindBody st.x)).innov_var < rAcc p)
    (hcond1 : ¬ (yAxisCalc sqrtf p accelXY st.x
        (axisStep sqrtf p accelXY st.x (relWindBody st.x) 0 st kInit).1.x
        (axisStep sqrtf p accelXY st.x (relWindBody st.x) 0 st kInit).1.P
        (relWindBody st.x)).innov_var < rAcc p) :
    (∀ j, relWindBody st.x j = 0) ∧
    (xAxisCalc sqrtf p accelXY st.x st.x st.P (relWindBody st.x)).predAccel = 0 ∧
    (xAxisCalc sqrtf p accelXY st.x st.x st.P (relWindBody st.x)).innov = 0 ∧
    (yAxisCalc sqrtf p accelXY st.x
      (axisStep sqrtf p accelXY st.x (relWindBody st.x) 0 st kInit).1.x
      (axisStep sqrtf p accelXY st.x (relWindBody st.x) 0 st kInit).1.P
      (relWindBody st.x)).predAccel = 0 ∧
    (yAxisCalc sqrtf p accelXY st.x
      (axisStep sqrtf p accelXY st.x (relWindBody st.x) 0 st kInit).1.x
      (axisStep sqrtf p accelXY st.x (relWindBody st.x) 0 st kInit).1.P
      (relWindBody st.x)).innov = 0 ∧
    (fuseDrag sqrtf p accelXY kInit st).drag_test_ratio 0 = 0 ∧
    (fuseDrag sqrtf p accelXY kInit st).drag_test_ratio 1 = 0 ∧
    (fuseDrag sqrtf p accelXY kInit st).drag_innov 0 = 0 ∧
    (fuseDrag sqrtf p accelXY kInit st).drag_innov 1 = 0 ∧
    (fuseDrag sqrtf p accelXY kInit st).x = st.x := by
  have hrwb := relWindBody_hover st.x hv4 hv5 hv6 hw22 hw23
  have hx := xAxisCalc_hover sqrtf p accelXY st.x st.x st.P (relWindBody st.x)
    (hrwb 0) hacc0 hb13
  have hcond0' : ¬ (axisCalcOf sqrtf p accelXY st.x st.x st.P (relWindBody st.x) 0).innov_var <
      rAcc p := by
    rw [axisCalcOf_zero]
    exact hcond0
  have hx0z : (axisCalcOf sqrtf p accelXY st.x st.x st.P (relWindBody st.x) 0).innov = 0 := by
    rw [axisCalcOf_zero]
    exact hx.2.1
  have ha0x : (axisStep sqrtf p accelXY st.x (relWindBody st.x) 0 st kInit).1.x = st.x :=
    axisStep_x_innov_zero sqrtf p accelXY st.x (relWindBody st.x) 0 st kInit hx0z
  obtain ⟨hi0, hr0, hv0⟩ := axisStep_diag sqrtf p accelXY st.x (relWindBody st.x) 0 st kInit hcond0'
  have ha0flag : (axisStep sqrtf p accelXY st.x (relWindBody st.x) 0 st kInit).2.2 = false := by
    rw [axisStep_of_not_abort sqrtf p accelXY st.x (relWindBody st.x) 0 st kInit hcond0']
  have hy := yAxisCalc_hover sqrtf p accelXY st.x
    (axisStep sqrtf p accelXY st.x (relWindBody st.x) 0 st kInit).1.x
    (axisStep sqrtf p accelXY st.x (relWindBody st.x) 0 st kInit).1.P
    (relWindBody st.x) (hrwb 1) hacc1 (by rw [ha0x]; exact hb14)
  have hcond1' : ¬ (axisCalcOf sqrtf p accelXY st.x
      (axisStep sqrtf p accelXY st.x (relWindBody st.x) 0 st kInit).1.x
      (axisStep sqrtf p accelXY st.x (relWindBody st.x) 0 st kInit).1.P
      (relWindBody st.x) 1).innov_var < rAcc p := by
    rw [axisCalcOf_one]
    exact hcond1
  have hy1z : (axisCalcOf sqrtf p accelXY st.x
      (axisStep sqrtf p accelXY st.x (relWindBody st.x) 0 st kInit).1.x
      (axisStep sqrtf p accelXY st.x (relWindBody st.x) 0 st kInit).1.P
      (relWindBody st.x) 1).innov = 0 := by
    rw [axisCalcOf_one]
    exact hy.2.1
  have ha1x : (axisStep sqrtf p accelXY st.x (relWindBody st.x) 1
      (axisStep sqrtf p accelXY st.x (relWindBody st.x) 0 st kInit).1
      (axisStep sqrtf p accelXY st.x (relWindBody st.x) 0 st kInit).2.1).1.x =
      (axisStep sqrtf p accelXY st.x (relWindBody st.x) 0 st kInit).1.x :=
    axisStep_x_innov_zero sqrtf p accelXY st.x (relWindBody st.x) 1
      (axisStep sqrtf p accelXY st.x (relWindBody st.x) 0 st kInit).1
      (axisStep sqrtf p accelXY st.x (relWindBody st.x) 0 st kInit).2.1 hy1z
  obtain ⟨hi1, hr1, hv1⟩ := axisStep_diag sqrtf p accelXY st.x (relWindBody st.x) 1
    (axisStep sqrtf p accelXY st.x (relWindBody st.x) 0 st kInit).1
    (axisStep sqrtf p accelXY st.x (relWindBody st.x) 0 st kInit).2.1 hcond1'
  have hfd : fuseDrag sqrtf p accelXY kInit st =
      (axisStep sqrtf p accelXY st.x (relWindBody st.x) 1
        (axisStep sqrtf p accelXY st.x (relWindBody st.x) 0 st kInit).1
        (axisStep sqrtf p accelXY st.x (relWindBody st.x) 0 st kInit).2.1).1 := by
    rw [fuseDrag_run_eq sqrtf p accelXY kInit st hb]
    simp only [ha0flag, Bool.false_eq_true, if_false]
  refine ⟨hrwb, hx.1, hx.2.1, hy.1, hy.2.1, ?_, ?_, ?_, ?_, ?_⟩
  · rw [hfd, hr1, Function.update_noteq (by decide : (0 : Fin 2) ≠ 1), hr0,
      Function.update_same, axisCalcOf_zero]
    exact hx.2.2
  · rw [hfd, hr1, Function.update_same, axisCalcOf_one]
    exact hy.2.2
  · rw [hfd, hi1, Function.update_noteq (by decide : (0 : Fin 2) ≠ 1), hi0,
      Function.update_same, axisCalcOf_zero]
    exact hx.2.1
  · rw [hfd, hi1, Function.update_same, axisCalcOf_one]
    exact hy.2.1
  · rw [hfd, ha1x, ha0x]

/-- Witness for C9 at a concrete input: zero-wind hover with zero
covariance; both conditioning checks pass with innovation variance
exactly `R_ACC`, and all scenario conclusions hold. -/
theorem c9_witness :
    (¬ (pNom.bcoef_x < 1 ∨ pNom.bcoef_y < 1) ∧
     stC6.x 0 = 1 ∧ stC6.x 1 = 0 ∧ stC6.x 2 = 0 ∧ stC6.x 3 = 0 ∧
     stC6.x 4 = 0 ∧ stC6.x 5 = 0 ∧ stC6.x 6 = 0 ∧
     stC6.x 22 = 0 ∧ stC6.x 23 = 0 ∧
     zeroAcc 0 = 0 ∧ zeroAcc 1 = 0 ∧ stC6.x 13 = 0 ∧ stC6.x 14 = 0 ∧
     ¬ (xAxisCalc sqrtTable pNom zeroAcc stC6.x stC6.x stC6.P (relWindBody stC6.x)).innov_var <
       rAcc pNom ∧
     ¬ (yAxisCalc sqrtTable pNom zeroAcc stC6.x
         (axisStep sqrtTable pNom zeroAcc stC6.x (relWindBody stC6.x) 0 stC6 zeroK).1.x
         (axisStep sqrtTable pNom zeroAcc stC6.x (relWindBody stC6.x) 0 stC6 zeroK).1.P
         (relWindBody stC6.x)).innov_var < rAcc pNom) ∧
    ((∀ j, relWindBody stC6.x j = 0) ∧
     (xAxisCalc sqrtTable pNom zeroAcc stC6.x stC6.x stC6.P (relWindBody stC6.x)).predAccel = 0 ∧
     (xAxisCalc sqrtTable pNom zeroAcc stC6.x stC6.x stC6.P (relWindBody stC6.x)).innov = 0 ∧
     (yAxisCalc sqrtTable pNom zeroAcc stC6.x
       (axisStep sqrtTable pNom zeroAcc stC6.x (relWindBody stC6.x) 0 stC6 zeroK).1.x
       (axisStep sqrtTable pNom zeroAcc stC6.x (relWindBody stC6.x) 0 stC6 zeroK).1.P
       (relWindBody stC6.x)).predAccel = 0 ∧
     (yAxisCalc sqrtTable pNom zeroAcc stC6.x
       (axisStep sqrtTable pNom zeroAcc stC6.x (relWindBody stC6.x) 0 stC6 zeroK).1.x
       (axisStep sqrtTable pNom zeroAcc stC6.x (relWindBody stC6.x) 0 stC6 zeroK).1.P
       (relWindBody stC6.x)).innov = 0 ∧
     (fuseDrag sqrtTable pNom zeroAcc zeroK stC6).drag_test_ratio 0 = 0 ∧
     (fuseDrag sqrtTable pNom zeroAcc zeroK stC6).drag_test_ratio 1 = 0 ∧
     (fuseDrag sqrtTable pNom zeroAcc zeroK stC6).drag_innov 0 = 0 ∧
     (fuseDrag sqrtTable pNom zeroAcc zeroK stC6).drag_innov 1 = 0 ∧
     (fuseDrag sqrtTable pNom zeroAcc zeroK stC6).x = stC6.x) := by
  have hb : ¬ (pNom.bcoef_x < 1 ∨ pNom.bcoef_y < 1) := by norm_num [pNom]
  have hq0 : stC6.x 0 = 1 := by norm_num [stC6, qId]
  have hq1 : stC6.x 1 = 0 := by norm_num +decide [stC6, qId]
  have hq2 : stC6.x 2 = 0 := by norm_num +decide [stC6, qId]
  have hq3 : stC6.x 3 = 0 := by norm_num +decide [stC6, qId]
  have hv4 : stC6.x 4 = 0 := by norm_num +decide [stC6, qId]
  have hv5 : stC6.x 5 = 0 := by norm_num +decide [stC6, qId]
  have hv6 : stC6.x 6 = 0 := by norm_num +decide [stC6, qId]
  have hw22 : stC6.x 22 = 0 := by norm_num +decide [stC6, qId]
  have hw23 : stC6.x 23 = 0 := by norm_num +decide [stC6, qId]
  have hacc0 : zeroAcc 0 = 0 := by norm_num [zeroAcc]
  have hacc1 : zeroAcc 1 = 0 := by norm_num [zeroAcc]
  have hb13 : stC6.x 13 = 0 := by norm_num +decide [stC6, qId]
  have hb14 : stC6.x 14 = 0 := by norm_num +decide [stC6, qId]
  have hcond0 : ¬ (xAxisCalc sqrtTable pNom zeroAcc stC6.x stC6.x stC6.P
      (relWindBody stC6.x)).innov_var < rAcc pNom := by
    norm_num +decide [xAxisCalc, sqrtTable, pNom, zeroAcc, stC6, qId, zeroCov, relWindBody,
      quatToInverseRotMat, rAcc, rhoOf, abs_of_nonneg, max_def]
  have hcond0' : ¬ (axisCalcOf sqrtTable pNom zeroAcc stC6.x stC6.x stC6.P
      (relWindBody stC6.x) 0).innov_var < rAcc pNom := by
    rw [axisCalcOf_zero]
    exact hcond0
  have hrwb := relWindBody_hover stC6.x hv4 hv5 hv6 hw22 hw23
  have hx := xAxisCalc_hover sqrtTable pNom zeroAcc stC6.x stC6.x stC6.P
    (relWindBody stC6.x) (hrwb 0) hacc0 hb13
  have hgate0 : (axisCalcOf sqrtTable pNom zeroAcc stC6.x stC6.x stC6.P
      (relWindBody stC6.x) 0).test_ratio ≤ 1 := by
    rw [axisCalcOf_zero, hx.2.2]
    norm_num
  have hh0 : ∀ i, ¬ (diagWritten stC6 0 (axisCalcOf sqrtTable pNom zeroAcc stC6.x stC6.x stC6.P
      (relWindBody stC6.x) 0)).P i i <
      mkKHP (kupd zeroK (axisCalcOf sqrtTable pNom zeroAcc stC6.x stC6.x stC6.P
          (relWindBody stC6.x) 0))
        (axisCalcOf sqrtTable pNom zeroAcc stC6.x stC6.x stC6.P (relWindBody stC6.x) 0).H
        (diagWritten stC6 0 (axisCalcOf sqrtTable pNom zeroAcc stC6.x stC6.x stC6.P
          (relWindBody stC6.x) 0)).P i i := by
    intro i
    norm_num [diagWritten, stC6, mkKHP, zeroCov]
  have ha0 : (axisStep sqrtTable pNom zeroAcc stC6.x (relWindBody stC6.x) 0 stC6 zeroK).1 =
      gateAndFuse (axisCalcOf sqrtTable pNom zeroAcc stC6.x stC6.x stC6.P (relWindBody stC6.x) 0) 0
        (diagWritten stC6 0 (axisCalcOf sqrtTable pNom zeroAcc stC6.x stC6.x stC6.P
          (relWindBody stC6.x) 0))
        (kupd zeroK (axisCalcOf sqrtTable pNom zeroAcc stC6.x stC6.x stC6.P
          (relWindBody stC6.x) 0)) := by
    rw [axisStep_of_not_abort sqrtTable pNom zeroAcc stC6.x (relWindBody stC6.x) 0 stC6 zeroK hcond0']
  have hgf := gateAndFuse_healthy
    (axisCalcOf sqrtTable pNom zeroAcc stC6.x stC6.x stC6.P (relWindBody stC6.x) 0) 0
    (diagWritten stC6 0 (axisCalcOf sqrtTable pNom zeroAcc stC6.x stC6.x stC6.P
      (relWindBody stC6.x) 0))
    (kupd zeroK (axisCalcOf sqrtTable pNom zeroAcc stC6.x stC6.x stC6.P (relWindBody stC6.x) 0))
    hgate0 hh0
  have ha0P : (axisStep sqrtTable pNom zeroAcc stC6.x (relWindBody stC6.x) 0 stC6 zeroK).1.P =
      fixCovarianceErrors (fun r c => stC6.P r c -
        mkKHP (kupd zeroK (axisCalcOf sqrtTable pNom zeroAcc stC6.x stC6.x stC6.P
            (relWindBody stC6.x) 0))
          (axisCalcOf sqrtTable pNom zeroAcc stC6.x stC6.x stC6.P (relWindBody stC6.x) 0).H
          stC6.P r c) := by
    rw [ha0, hgf]
    rfl
  have hx0z : (axisCalcOf sqrtTable pNom zeroAcc stC6.x stC6.x stC6.P
      (relWindBody stC6.x) 0).innov = 0 := by
    rw [axisCalcOf_zero]
    exact hx.2.1
  have ha0x : (axisStep sqrtTable pNom zeroAcc stC6.x (relWindBody stC6.x) 0 stC6 zeroK).1.x =
      stC6.x :=
    axisStep_x_innov_zero sqrtTable pNom zeroAcc stC6.x (relWindBody stC6.x) 0 stC6 zeroK hx0z
  have hcond1 : ¬ (yAxisCalc sqrtTable pNom zeroAcc stC6.x
      (axisStep sqrtTable pNom zeroAcc stC6.x (relWindBody stC6.x) 0 stC6 zeroK).1.x
      (axisStep sqrtTable pNom zeroAcc stC6.x (relWindBody stC6.x) 0 stC6 zeroK).1.P
      (relWindBody stC6.x)).innov_var < rAcc pNom := by
    rw [ha0x, ha0P]
    norm_num +decide [yAxisCalc, fixCovarianceErrors, mkKHP, sqrtTable, pNom, zeroAcc, stC6,
      qId, zeroCov, relWindBody, quatToInverseRotMat, rAcc, rhoOf, abs_of_nonneg, max_def]
  exact ⟨⟨hb, hq0, hq1, hq2, hq3, hv4, hv5, hv6, hw22, hw23, hacc0, hacc1, hb13, hb14,
      hcond0, hcond1⟩,
    c9_zero_wind_hover sqrtTable pNom zeroAcc zeroK stC6 hb hq0 hq1 hq2 hq3 hv4 hv5 hv6
      hw22 hw23 hacc0 hacc1 hb13 hb14 hcond0 hcond1⟩

lemma accBug_A0_var :
    (axisCalcOf sqrtTable pNom accBug hoverState.x hoverState.x hoverState.P
      (relWindBody hoverState.x) 0).innov_var = 3 := by
  rw [axisCalcOf_zero]
  norm_num +decide [xAxisCalc, sqrtTable, pNom, accBug, hoverState, qId, idCov, relWindBody,
    quatToInverseRotMat, rAcc, rhoOf, abs_of_nonneg, max_def]

lemma accBug_A0_innov :
    (axisCalcOf sqrtTable pNom accBug hoverState.x hoverState.x hoverState.P
      (relWindBody hoverState.x) 0).innov = -(1/2) := by
  rw [axisCalcOf_zero]
  norm_num +decide [xAxisCalc, sqrtTable, pNom, accBug, hoverState, qId, idCov, relWindBody,
    quatToInverseRotMat, rAcc, rhoOf, abs_of_nonneg, max_def]

lemma accBug_A0_ratio :
    (axisCalcOf sqrtTable pNom accBug hoverState.x hoverState.x hoverState.P
      (relWindBody hoverState.x) 0).test_ratio = 1/300 := by
  rw [axisCalcOf_zero]
  norm_num +decide [xAxisCalc, sqrtTable, pNom, accBug, hoverState, qId, idCov, relWindBody,
    quatToInverseRotMat, rAcc, rhoOf, abs_of_nonneg, max_def]

lemma accBug_A0_H :
    (axisCalcOf sqrtTable pNom accBug hoverState.x hoverState.x hoverState.P
      (relWindBody hoverState.x) 0).H =
    (fun j => if j = 4 then -1 else if j = 7 then 1 else 0) := by
  rw [axisCalcOf_zero]
  funext j
  fin_cases j <;>
    norm_num +decide [xAxisCalc, sqrtTable, pNom, accBug, hoverState, qId, idCov, relWindBody,
      quatToInverseRotMat, rAcc, rhoOf, abs_of_nonneg, max_def]

lemma accBug_A0_k22 :
    (axisCalcOf sqrtTable pNom accBug hoverState.x hoverState.x hoverState.P
      (relWindBody hoverState.x) 0).k22 = 1/3 := by
  rw [axisCalcOf_zero]
  norm_num +decide [xAxisCalc, sqrtTable, pNom, accBug, hoverState, qId, idCov, relWindBody,
    quatToInverseRotMat, rAcc, rhoOf, abs_of_nonneg, max_def]

lemma accBug_A0_k23 :
    (axisCalcOf sqrtTable pNom accBug hoverState.x hoverState.x hoverState.P
      (relWindBody hoverState.x) 0).k23 = 0 := by
  rw [axisCalcOf_zero]
  norm_num +decide [xAxisCalc, sqrtTable, pNom, accBug, hoverState, qId, idCov, relWindBody,
    quatToInverseRotMat, rAcc, rhoOf, abs_of_nonneg, max_def]

lemma hover_accBug_axis0 (kInit : Fin 24 → ℚ)
    (hh0 : ∀ i, ¬ hoverState.P i i <
      mkKHP (kupd kInit (axisCalcOf sqrtTable pNom accBug hoverState.x hoverState.x hoverState.P
          (relWindBody hoverState.x) 0))
        (axisCalcOf sqrtTable pNom accBug hoverState.x hoverState.x hoverState.P
          (relWindBody hoverState.x) 0).H hoverState.P i i) :
    (axisStep sqrtTable pNom accBug hoverState.x (relWindBody hoverState.x) 0 hoverState kInit).1.x =
      fuse hoverState.x
        (kupd kInit (axisCalcOf sqrtTable pNom accBug hoverState.x hoverState.x hoverState.P
          (relWindBody hoverState.x) 0))
        (axisCalcOf sqrtTable pNom accBug hoverState.x hoverState.x hoverState.P
          (relWindBody hoverState.x) 0).innov ∧
    (axisStep sqrtTable pNom accBug hoverState.x (relWindBody hoverState.x) 0 hoverState kInit).1.P =
      fixCovarianceErrors (fun r c => hoverState.P r c -
        mkKHP (kupd kInit (axisCalcOf sqrtTable pNom accBug hoverState.x hoverState.x hoverState.P
            (relWindBody hoverState.x) 0))
          (axisCalcOf sqrtTable pNom accBug hoverState.x hoverState.x hoverState.P
            (relWindBody hoverState.x) 0).H hoverState.P r c) ∧
    (axisStep sqrtTable pNom accBug hoverState.x (relWindBody hoverState.x) 0 hoverState
      kInit).1.drag_test_ratio 0 =
      (axisCalcOf sqrtTable pNom accBug hoverState.x hoverState.x hoverState.P
        (relWindBody hoverState.x) 0).test_ratio ∧
    (axisStep sqrtTable pNom accBug hoverState.x (relWindBody hoverState.x) 0 hoverState
      kInit).2.2 = false := by
  have hcond0 : ¬ (axisCalcOf sqrtTable pNom accBug hoverState.x hoverState.x hoverState.P
      (relWindBody hoverState.x) 0).innov_var < rAcc pNom := by
    rw [accBug_A0_var]
    norm_num [rAcc, pNom]
  have hgate0 : (axisCalcOf sqrtTable pNom accBug hoverState.x hoverState.x hoverState.P
      (relWindBody hoverState.x) 0).test_ratio ≤ 1 := by
    rw [accBug_A0_ratio]
    norm_num
  obtain ⟨hi0, hr0, hv0⟩ := axisStep_diag sqrtTable pNom accBug hoverState.x
    (relWindBody hoverState.x) 0 hoverState kInit hcond0
  refine ⟨?_, ?_, ?_, ?_⟩
  · rw [axisStep_of_not_abort sqrtTable pNom accBug hoverState.x (relWindBody hoverState.x) 0
        hoverState kInit hcond0,
      gateAndFuse_healthy
        (axisCalcOf sqrtTable pNom accBug hoverState.x hoverState.x hoverState.P
          (relWindBody hoverState.x) 0) 0
        (diagWritten hoverState 0
          (axisCalcOf sqrtTable pNom accBug hoverState.x hoverState.x hoverState.P
            (relWindBody hoverState.x) 0))
        (kupd kInit (axisCalcOf sqrtTable pNom accBug hoverState.x hoverState.x hoverState.P
          (relWindBody hoverState.x) 0)) hgate0 hh0]
    dsimp only
    rw [diagWritten_innov_self, diagWritten_x]
  · rw [axisStep_of_not_abort sqrtTable pNom accBug hoverState.x (relWindBody hoverState.x) 0
        hoverState kInit hcond0,
      gateAndFuse_healthy
        (axisCalcOf sqrtTable pNom accBug hoverState.x hoverState.x hoverState.P
          (relWindBody hoverState.x) 0) 0
        (diagWritten hoverState 0
          (axisCalcOf sqrtTable pNom accBug hoverState.x hoverState.x hoverState.P
            (relWindBody hoverState.x) 0))
        (kupd kInit (axisCalcOf sqrtTable pNom accBug hoverState.x hoverState.x hoverState.P
          (relWindBody hoverState.x) 0)) hgate0 hh0]
    rfl
  · rw [hr0, Function.update_same]
  · rw [axisStep_of_not_abort sqrtTable pNom accBug hoverState.x (relWindBody hoverState.x) 0
      hoverState kInit hcond0]

lemma diagWritten_ratio_other (st : EkfState) (ac : AxisCalc) :
    (diagWritten st 1 ac).drag_test_ratio 0 = st.drag_test_ratio 0 := by
  simp [diagWritten, Function.update_apply]

lemma accBug_e0_hh0 : ∀ i, ¬ hoverState.P i i <
    mkKHP (kupd e0 (axisCalcOf sqrtTable pNom accBug hoverState.x hoverState.x hoverState.P
        (relWindBody hoverState.x) 0))
      (axisCalcOf sqrtTable pNom accBug hoverState.x hoverState.x hoverState.P
        (relWindBody hoverState.x) 0).H hoverState.P i i := by
  intro i
  simp only [mkKHP, kupd, Function.update_apply, accBug_A0_H, accBug_A0_k22, accBug_A0_k23]
  fin_cases i <;> norm_num +decide [hoverState, idCov, e0]

lemma accBug_zeroK_hh0 : ∀ i, ¬ hoverState.P i i <
    mkKHP (kupd zeroK (axisCalcOf sqrtTable pNom accBug hoverState.x hoverState.x hoverState.P
        (relWindBody hoverState.x) 0))
      (axisCalcOf sqrtTable pNom accBug hoverState.x hoverState.x hoverState.P
        (relWindBody hoverState.x) 0).H hoverState.P i i := by
  intro i
  simp only [mkKHP, kupd, Function.update_apply, accBug_A0_H, accBug_A0_k22, accBug_A0_k23]
  fin_cases i <;> norm_num +decide [hoverState, idCov, zeroK]

lemma hover_accBug_run (kInit : Fin 24 → ℚ)
    (hh0 : ∀ i, ¬ hoverState.P i i <
      mkKHP (kupd kInit (axisCalcOf sqrtTable pNom accBug hoverState.x hoverState.x hoverState.P
          (relWindBody hoverState.x) 0))
        (axisCalcOf sqrtTable pNom accBug hoverState.x hoverState.x hoverState.P
          (relWindBody hoverState.x) 0).H hoverState.P i i)
    (hcond1 : ¬ (axisCalcOf sqrtTable pNom accBug hoverState.x
        (axisStep sqrtTable pNom accBug hoverState.x (relWindBody hoverState.x) 0 hoverState
          kInit).1.x
        (axisStep sqrtTable pNom accBug hoverState.x (relWindBody hoverState.x) 0 hoverState
          kInit).1.P
        (relWindBody hoverState.x) 1).innov_var < rAcc pNom)
    (hgate1 : ¬ (axisCalcOf sqrtTable pNom accBug hoverState.x
        (axisStep sqrtTable pNom accBug hoverState.x (relWindBody hoverState.x) 0 hoverState
          kInit).1.x
        (axisStep sqrtTable pNom accBug hoverState.x (relWindBody hoverState.x) 0 hoverState
          kInit).1.P
        (relWindBody hoverState.x) 1).test_ratio ≤ 1) :
    (fuseDrag sqrtTable pNom accBug kInit hoverState).x 0 = 1 - kInit 0 * (-(1/2)) ∧
    (fuseDrag sqrtTable pNom accBug kInit hoverState).drag_test_ratio 0 = 1/300 := by
  obtain ⟨hx0, hP0, hratio0, hflag0⟩ := hover_accBug_axis0 kInit hh0
  have ha1 : (axisStep sqrtTable pNom accBug hoverState.x (relWindBody hoverState.x) 1
      (axisStep sqrtTable pNom accBug hoverState.x (relWindBody hoverState.x) 0 hoverState
        kInit).1
      (axisStep sqrtTable pNom accBug hoverState.x (relWindBody hoverState.x) 0 hoverState
        kInit).2.1).1 =
      diagWritten
        (axisStep sqrtTable pNom accBug hoverState.x (relWindBody hoverState.x) 0 hoverState
          kInit).1 1
        (axisCalcOf sqrtTable pNom accBug hoverState.x
          (axisStep sqrtTable pNom accBug hoverState.x (relWindBody hoverState.x) 0 hoverState
            kInit).1.x
          (axisStep sqrtTable pNom accBug hoverState.x (relWindBody hoverState.x) 0 hoverState
            kInit).1.P
          (relWindBody hoverState.x) 1) := by
    rw [axisStep_of_not_abort sqrtTable pNom accBug hoverState.x (relWindBody hoverState.x) 1
        (axisStep sqrtTable pNom accBug hoverState.x (relWindBody hoverState.x) 0 hoverState
          kInit).1
        (axisStep sqrtTable pNom accBug hoverState.x (relWindBody hoverState.x) 0 hoverState
          kInit).2.1 hcond1,
      gateAndFuse_rejected _ _ _ _ hgate1]
  have hfd : fuseDrag sqrtTable pNom accBug kInit hoverState =
      (axisStep sqrtTable pNom accBug hoverState.x (relWindBody hoverState.x) 1
        (axisStep sqrtTable pNom accBug hoverState.x (relWindBody hoverState.x) 0 hoverState
          kInit).1
        (axisStep sqrtTable pNom accBug hoverState.x (relWindBody hoverState.x) 0 hoverState
          kInit).2.1).1 := by
    rw [fuseDrag_run_eq sqrtTable pNom accBug kInit hoverState (by norm_num [pNom])]
    simp only [hflag0, Bool.false_eq_true, if_false]
  constructor
  · rw [hfd, ha1, diagWritten_x, hx0, accBug_A0_innov]
    norm_num +decide [fuse, kupd, Function.update_apply, hoverState, qId]
  · rw [hfd, ha1, diagWritten_ratio_other, hratio0, accBug_A0_ratio]

lemma accBug_e0_cond1 : ¬ (axisCalcOf sqrtTable pNom accBug hoverState.x
    (axisStep sqrtTable pNom accBug hoverState.x (relWindBody hoverState.x) 0 hoverState e0).1.x
    (axisStep sqrtTable pNom accBug hoverState.x (relWindBody hoverState.x) 0 hoverState e0).1.P
    (relWindBody hoverState.x) 1).innov_var < rAcc pNom := by
  obtain ⟨hx0, hP0, h3, h4⟩ := hover_accBug_axis0 e0 accBug_e0_hh0
  rw [axisCalcOf_one, hx0, hP0]
  simp only [accBug_A0_H, accBug_A0_k22, accBug_A0_k23, accBug_A0_innov]
  norm_num +decide [yAxisCalc, fuse, kupd, Function.update_apply, fixCovarianceErrors, mkKHP,
    sqrtTable, pNom, accBug, hoverState, qId, idCov, e0, relWindBody, quatToInverseRotMat,
    rAcc, rhoOf, abs_of_nonneg, max_def]

lemma accBug_e0_gate1 : ¬ (axisCalcOf sqrtTable pNom accBug hoverState.x
    (axisStep sqrtTable pNom accBug hoverState.x (relWindBody hoverState.x) 0 hoverState e0).1.x
    (axisStep sqrtTable pNom accBug hoverState.x (relWindBody hoverState.x) 0 hoverState e0).1.P
    (relWindBody hoverState.x) 1).test_ratio ≤ 1 := by
  obtain ⟨hx0, hP0, h3, h4⟩ := hover_accBug_axis0 e0 accBug_e0_hh0
  rw [axisCalcOf_one, hx0, hP0]
  simp only [accBug_A0_H, accBug_A0_k22, accBug_A0_k23, accBug_A0_innov]
  norm_num +decide [yAxisCalc, fuse, kupd, Function.update_apply, fixCovarianceErrors, mkKHP,
    sqrtTable, pNom, accBug, hoverState, qId, idCov, e0, relWindBody, quatToInverseRotMat,
    rAcc, rhoOf, abs_of_nonneg, max_def]

lemma accBug_zeroK_cond1 : ¬ (axisCalcOf sqrtTable pNom accBug hoverState.x
    (axisStep sqrtTable pNom accBug hoverState.x (relWindBody hoverState.x) 0 hoverState zeroK).1.x
    (axisStep sqrtTable pNom accBug hoverState.x (relWindBody hoverState.x) 0 hoverState zeroK).1.P
    (relWindBody hoverState.x) 1).innov_var < rAcc pNom := by
  obtain ⟨hx0, hP0, h3, h4⟩ := hover_accBug_axis0 zeroK accBug_zeroK_hh0
  rw [axisCalcOf_one, hx0, hP0]
  simp only [accBug_A0_H, accBug_A0_k22, accBug_A0_k23, accBug_A0_innov]
  norm_num +decide [yAxisCalc, fuse, kupd, Function.update_apply, fixCovarianceErrors, mkKHP,
    sqrtTable, pNom, accBug, hoverState, qId, idCov, zeroK, relWindBody, quatToInverseRotMat,
    rAcc, rhoOf, abs_of_nonneg, max_def]

lemma accBug_zeroK_gate1 : ¬ (axisCalcOf sqrtTable pNom accBug hoverState.x
    (axisStep sqrtTable pNom accBug hoverState.x (relWindBody hoverState.x) 0 hoverState zeroK).1.x
    (axisStep sqrtTable pNom accBug hoverState.x (relWindBody hoverState.x) 0 hoverState zeroK).1.P
    (relWindBody hoverState.x) 1).test_ratio ≤ 1 := by
  obtain ⟨hx0, hP0, h3, h4⟩ := hover_accBug_axis0 zeroK accBug_zeroK_hh0
  rw [axisCalcOf_one, hx0, hP0]
  simp only [accBug_A0_H, accBug_A0_k22, accBug_A0_k23, accBug_A0_innov]
  norm_num +decide [yAxisCalc, fuse, kupd, Function.update_apply, fixCovarianceErrors, mkKHP,
    sqrtTable, pNom, accBug, hoverState, qId, idCov, zeroK, relWindBody, quatToInverseRotMat,
    rAcc, rhoOf, abs_of_nonneg, max_def]

/-- Claim C1 (code bug): the frozen claim says that every gain entry
outside the wind components is zero, so an accepted update changes only
state indices 22 and 23.  In the source `float Kfusion[24]` is never
initialized and entries 0-21 are never assigned (the assignments are
commented out), yet the whole array is passed to `fuse`.  At a concrete
accepted and healthy update whose gain array held the stack value 1 in
entry 0, the quaternion component q0 changes from 1 to 3/2 — state
components outside the wind pair are corrupted by the indeterminate gain
entries, contradicting the code's own comment that no states other than
wind velocity may be modified. -/
theorem c1_uninitialized_gain_corrupts_state :
    hoverState.x 0 = 1 ∧
    (fuseDrag sqrtTable pNom accBug e0 hoverState).drag_test_ratio 0 ≤ 1 ∧
    (fuseDrag sqrtTable pNom accBug e0 hoverState).x 0 = 3/2 := by
  obtain ⟨hx, hr⟩ := hover_accBug_run e0 accBug_e0_hh0 accBug_e0_cond1 accBug_e0_gate1
  refine ⟨by norm_num [hoverState, qId], ?_, ?_⟩
  · rw [hr]
    norm_num
  · rw [hx]
    norm_num [e0]

/-- Claim C2 (code bug): the frozen claim says every entry of `Kfusion`
read in the covariance-correction loop and in the call to `fuse` was
assigned earlier in the same call.  The source assigns only entries 22
and 23 of the uninitialized stack array; running the same accepted update
with two different initial contents of the array (1 versus 0 in entry 0)
produces two different posterior states, proving that the unassigned
entries are read and flow into the state correction. -/
theorem c2_kfusion_read_unassigned :
    (fuseDrag sqrtTable pNom accBug e0 hoverState).x 0 = 3/2 ∧
    (fuseDrag sqrtTable pNom accBug zeroK hoverState).x 0 = 1 ∧
    (fuseDrag sqrtTable pNom accBug e0 hoverState).x 0 ≠
      (fuseDrag sqrtTable pNom accBug zeroK hoverState).x 0 := by
  obtain ⟨hxe, hre⟩ := hover_accBug_run e0 accBug_e0_hh0 accBug_e0_cond1 accBug_e0_gate1
  obtain ⟨hxz, hrz⟩ := hover_accBug_run zeroK accBug_zeroK_hh0 accBug_zeroK_cond1 accBug_zeroK_gate1
  have h1 : (fuseDrag sqrtTable pNom accBug e0 hoverState).x 0 = 3/2 := by
    rw [hxe]
    norm_num [e0]
  have h2 : (fuseDrag sqrtTable pNom accBug zeroK hoverState).x 0 = 1 := by
    rw [hxz]
    norm_num [zeroK]
  refine ⟨h1, h2, ?_⟩
  rw [h1, h2]
  norm_num

/-- Claim C10: the standalone NE-velocity gain fragment computes, for a
symmetric 2x2 covariance block and scalar observation noise with
nonsingular innovation matrix, exactly the entries (0,0), (0,1) and
(1,1) of the joint Kalman gain `P * (P + velObsVar * I)⁻¹`. -/
theorem c10_ne_vel_gain_matches_joint (P00 P01 P11 v : ℚ)
    (hdet : (P00 + v) * (P11 + v) - P01 ^ 2 ≠ 0) :
    (neVelKalmanGain P00 P01 P11 v).1 =
      (Matrix.of ![![P00, P01], ![P01, P11]] *
       (Matrix.of ![![P00, P01], ![P01, P11]] +
         v • (1 : Matrix (Fin 2) (Fin 2) ℚ))⁻¹) 0 0 ∧
    (neVelKalmanGain P00 P01 P11 v).2.1 =
      (Matrix.of ![![P00, P01], ![P01, P11]] *
       (Matrix.of ![![P00, P01], ![P01, P11]] +
         v • (1 : Matrix (Fin 2) (Fin 2) ℚ))⁻¹) 0 1 ∧
    (neVelKalmanGain P00 P01 P11 v).2.2 =
      (Matrix.of ![![P00, P01], ![P01, P11]] *
       (Matrix.of ![![P00, P01], ![P01, P11]] +
         v • (1 : Matrix (Fin 2) (Fin 2) ℚ))⁻¹) 1 1 := by
  have hAeq : Matrix.of ![![P00, P01], ![P01, P11]] +
      v • (1 : Matrix (Fin 2) (Fin 2) ℚ) =
      Matrix.of ![![P00 + v, P01], ![P01, P11 + v]] := by
    ext i j
    fin_cases i <;> fin_cases j <;>
      simp [Matrix.add_apply, Matrix.smul_apply, Matrix.one_apply]
  rw [hAeq]
  have hdetA : (Matrix.of ![![P00 + v, P01], ![P01, P11 + v]]).det =
      (P00 + v) * (P11 + v) - P01 ^ 2 := by
    rw [Matrix.det_fin_two_of]
    ring
  have hinv : (Matrix.of ![![P00 + v, P01], ![P01, P11 + v]])⁻¹ =
      ((P00 + v) * (P11 + v) - P01 ^ 2)⁻¹ •
        Matrix.of ![![P11 + v, -P01], ![-P01, P00 + v]] := by
    rw [Matrix.inv_def, Matrix.adjugate_fin_two_of, hdetA, Ring.inverse_eq_inv]
  rw [hinv]
  have hS : P01 ^ 2 - (P11 + v) * (P00 + v) ≠ 0 := by
    intro h
    apply hdet
    linarith [h]
  refine ⟨?_, ?_, ?_⟩ <;>
    · simp [neVelKalmanGain, Matrix.mul_apply, Fin.sum_univ_two, Matrix.smul_apply]
      field_simp
      ring

/-- Witness for C10 at a concrete input: `P = [[2,1],[1,3]]`,
`velObsVar = 1`, whose innovation matrix has determinant 11. -/
theorem c10_witness :
    ((2 + 1 : ℚ) * (3 + 1) - 1 ^ 2 ≠ 0) ∧
    ((neVelKalmanGain 2 1 3 1).1 =
      (Matrix.of ![![(2 : ℚ), 1], ![1, 3]] *
       (Matrix.of ![![(2 : ℚ), 1], ![1, 3]] +
         (1 : ℚ) • (1 : Matrix (Fin 2) (Fin 2) ℚ))⁻¹) 0 0 ∧
     (neVelKalmanGain 2 1 3 1).2.1 =
      (Matrix.of ![![(2 : ℚ), 1], ![1, 3]] *
       (Matrix.of ![![(2 : ℚ), 1], ![1, 3]] +
         (1 : ℚ) • (1 : Matrix (Fin 2) (Fin 2) ℚ))⁻¹) 0 1 ∧
     (neVelKalmanGain 2 1 3 1).2.2 =
      (Matrix.of ![![(2 : ℚ), 1], ![1, 3]] *
       (Matrix.of ![![(2 : ℚ), 1], ![1, 3]] +
         (1 : ℚ) • (1 : Matrix (Fin 2) (Fin 2) ℚ))⁻¹) 1 1) :=
  ⟨by norm_num, c10_ne_vel_gain_matches_joint 2 1 3 1 (by norm_num)⟩
